import Mathlib

/-!
Verification development for the blockstack.js storage core
(`src/storage/index.js`, `src/keys.js`).

The JavaScript code is shallowly embedded as pure Lean functions.
Asynchronous promise chains become values of `Except JsError α`
(a rejected promise is `Except.error`); the external collaborators the
code calls out to (the gaia hub connection module, `fetch`, the ECIES /
ECDSA primitives of `../encryption`, `JSON.parse` / `JSON.stringify`,
profile lookup) are fields of an `Env` record, so theorems quantify over
their behaviour and hypotheses pin down exactly the facts assumed about
them.  Machine-level JS details that the claims do not touch (string
coercion of non-string JSON fields, `undefined` vs explicitly-passed
`undefined` option fields) are noted at the definitions they concern.
-/

namespace Blockstack

/-!  Definitions: the embedded storage module, the toy witness
primitives, and the concrete witness environments. -/

/-- Byte sequences (JS `Buffer` / `ArrayBuffer` contents). -/
abbrev Bytes := List Nat

/-- A JS `string | Buffer` value, as accepted and produced by the storage API. -/
inductive Content where
  | str (s : String)
  | buf (b : Bytes)
deriving DecidableEq, Repr

/-- The subset of JSON values the storage module ever produces or consumes:
null, strings, arrays and objects (field order significant, as in JS). -/
inductive Json where
  | null
  | str (s : String)
  | arr (elems : List Json)
  | obj (fields : List (String × Json))

/-- Rejection reasons of the promise chains in the storage module.
`rejectedNull` models the bare `reject(null)` in `getFileContents`;
the `Error`-class values carry their message so distinct causes stay
distinguishable. -/
inductive JsError where
  | rejectedNull
  | error (msg : String)
  | invalidStateError (msg : String)
  | signatureVerificationError (msg : String)
  | typeError (msg : String)
  | parseFailure (msg : String)
deriving DecidableEq, Repr

/-- Result object of the external `signECDSA` primitive:
`{ publicKey, signature }`. -/
structure SigObject where
  publicKey : String
  signature : String
deriving DecidableEq, Repr

/-- The JSON object `JSON.stringify` sees for a detached signature object. -/
def sigObjectToJson (so : SigObject) : Json :=
  Json.obj [("publicKey", Json.str so.publicKey), ("signature", Json.str so.signature)]

/-- Property lookup `j.key` on a parsed JSON value: `none` models JS
`undefined` (not an object, or key absent). -/
def Json.getField : Json → String → Option Json
  | Json.obj fields, key => (fields.find? (fun kv => decide (kv.fst = key))).map (fun kv => kv.snd)
  | _, _ => none

/-- JS truthiness of a possibly-undefined JSON field: `undefined`, `null`
and the empty string are falsy; everything else the module meets is truthy. -/
def jsTruthyField : Option Json → Bool
  | none => false
  | some Json.null => false
  | some (Json.str s) => decide (s ≠ "")
  | some (Json.arr _) => true
  | some (Json.obj _) => true

/-- Read a JSON field as the string the code subsequently treats it as.
In the scenarios the claims describe these fields are strings; a
non-string here would make the JS feed a non-string into an external
primitive (which would throw inside that primitive), a corner the claims
never exercise. -/
def jsonAsStr : Option Json → String
  | some (Json.str s) => s
  | _ => ""

/-- A `boolean | string` option value (`options.encrypt`, `options.sign`). -/
inductive BoolOrString where
  | bool (b : Bool)
  | str (s : String)
deriving DecidableEq, Repr

/-- JS truthiness of a `boolean | string` option. -/
def jsTruthy : BoolOrString → Bool
  | BoolOrString.bool b => b
  | BoolOrString.str s => decide (s ≠ "")

/-- Session data returned by `caller.loadUserData()`, restricted to the
field the storage module reads. -/
structure UserData where
  appPrivateKey : String

/-- The session's `AppConfig`, restricted to the field the module reads. -/
structure AppConfig where
  appDomain : String

/-- External `GaiaHubConfig` (from `./hub`), read-only fields used here. -/
structure GaiaHubConfig where
  server : String := ""
  address : String := ""
  token : String := ""

/-- A `fetch` response, with both decodings available (`text()` and
`arrayBuffer()`); the code picks one by content type. -/
structure HttpResponse where
  status : Nat
  contentType : Option String
  text : String
  buffer : Bytes

/-- A looked-up profile, restricted to what `getUserAppFileUrl` reads:
whether it has an `apps` property and that property's string entries. -/
structure Profile where
  apps : Option (List (String × String))

/-- One call to the external `uploadToGaiaHub(path, content, cfg, contentType)`.
`putFileImpl`'s observable effect is the list of uploads it performs. -/
structure UploadAction where
  path : String
  content : Content
  contentType : String
deriving DecidableEq, Repr

/-- The world the storage module runs against: the caller's session plus
every external collaborator it invokes.  Each field models one external
function exactly at the interface the code consumes. -/
structure Env where
  appConfig : Option AppConfig
  userData : UserData
  gaiaHubConfig : GaiaHubConfig
  getFullReadUrl : String → GaiaHubConfig → String
  lookupProfile : String → Option String → Except JsError Profile
  fetch : String → HttpResponse
  fetchPost : String → String → HttpResponse
  jsonStringify : Json → String
  jsonParse : String → Option Json
  encryptECIES : String → Content → Json
  decryptECIES : String → Json → Except JsError Content
  signECDSA : String → Content → SigObject
  verifyECDSA : Content → String → String → Bool
  getPublicKeyFromPrivate : String → String
  publicKeyToAddress : String → String
  bufferFrom : Content → Bytes

/-- JS `String.prototype.startsWith`, as a kernel-computable function. -/
def strStartsAux : List Char → List Char → Bool
  | [], _ => true
  | _ :: _, [] => false
  | c :: cs, d :: ds => (c = d) && strStartsAux cs ds

/-- Whether `s` starts with `pre` (argument order as in `s.startsWith pre`). -/
def strStartsWith (s pat : String) : Bool := strStartsAux pat.data s.data

/-- Constant `SIGNATURE_FILE_SUFFIX`. -/
def SIGNATURE_FILE_SUFFIX : String := ".sig"

/-- An apostrophe character, used to spell the source's error messages. -/
def apos : String := Char.toString (Char.ofNat 39)

/-- Lookup of `profile.apps[appOrigin]` guarded by `hasOwnProperty`. -/
def appsLookup (apps : List (String × String)) (appOrigin : String) : Option String :=
  (apps.find? (fun kv => decide (kv.fst = appOrigin))).map (fun kv => kv.snd)

/-- Index of the first `?` or `#` in a character list (list length if none). -/
def findSpecialIdx : List Char → Nat
  | [] => 0
  | c :: rest => if c = '?' ∨ c = '#' then 0 else findSpecialIdx rest + 1

/-- The bucket-URL normalisation `bucketUrl.replace(/\/?(\?|#|$)/, '/$1')`:
insert a `/` before the first `?`, `#` or end of string, absorbing one
slash already there. -/
def normalizeBucketUrl (s : String) : String :=
  let cs := s.data
  let i := findSpecialIdx cs
  let j := if 0 < i ∧ cs.getD (i - 1) ' ' = '/' then i - 1 else i
  String.mk (cs.take j ++ '/' :: cs.drop i)

/-- Character class `[a-km-zA-HJ-NP-Z0-9]` of the gaia-address regex. -/
def isB58Body (c : Char) : Bool :=
  decide (('a' ≤ c ∧ c ≤ 'k') ∨ ('m' ≤ c ∧ c ≤ 'z') ∨ ('A' ≤ c ∧ c ≤ 'H') ∨
    ('J' ≤ c ∧ c ≤ 'N') ∨ ('P' ≤ c ∧ c ≤ 'Z') ∨ ('0' ≤ c ∧ c ≤ '9'))

/-- Length of the maximal `isB58Body` run at the head of the list. -/
def b58RunLen : List Char → Nat
  | [] => 0
  | c :: rest => if isB58Body c then b58RunLen rest + 1 else 0

/-- Leftmost match of `/([13][a-km-zA-HJ-NP-Z0-9]{26,35})/` (greedy),
the address-pattern extraction of `getGaiaAddress`. -/
def matchBase58 : List Char → Option String
  | [] => none
  | c :: rest =>
    if c = '1' ∨ c = '3' then
      let r := b58RunLen rest
      if 26 ≤ r then some (String.mk (c :: rest.take (min r 35)))
      else matchBase58 rest
    else matchBase58 rest

/-- Embedding of `getUserAppFileUrl(path, username, appOrigin, zoneFileLookupURL)`:
profile lookup, `apps[appOrigin]` extraction (absent or falsy ⇒ `null`),
bucket-URL normalisation, and path concatenation. -/
def getUserAppFileUrl (env : Env) (path username appOrigin : String)
    (zoneFileLookupURL : Option String) : Except JsError (Option String) :=
  match env.lookupProfile username zoneFileLookupURL with
  | Except.error e => Except.error e
  | Except.ok profile =>
    let bucketUrl? : Option String :=
      match profile.apps with
      | some apps => appsLookup apps appOrigin
      | none => none
    match bucketUrl? with
    | some bucketUrl =>
      if bucketUrl ≠ "" then Except.ok (some (normalizeBucketUrl bucketUrl ++ path))
      else Except.ok none
    | none => Except.ok none

/-- The shared URL-resolution head of `getFileContents` and
`getGaiaAddress`: multiplayer reads resolve through the other user's
profile, own reads through the cached hub connection's read URL. -/
def resolveReadUrl (env : Env) (path app : String) (username zoneFileLookupURL : Option String) :
    Except JsError (Option String) :=
  match username with
  | some u => getUserAppFileUrl env path u app zoneFileLookupURL
  | none => Except.ok (some (env.getFullReadUrl path env.gaiaHubConfig))

/-- Embedding of `getGaiaAddress(caller, app, username, zoneFileLookupURL)`: resolve the
read URL of `/` and extract the first base58-address-shaped substring.
A `null` URL makes the JS dereference `null.match`, modelled as the
resulting `TypeError` rejection. -/
def getGaiaAddress (env : Env) (app : String) (username zoneFileLookupURL : Option String) :
    Except JsError String :=
  match resolveReadUrl env "/" app username zoneFileLookupURL with
  | Except.error e => Except.error e
  | Except.ok none => Except.error (JsError.typeError "Cannot read property match of null")
  | Except.ok (some fileUrl) =>
    match matchBase58 fileUrl.data with
    | none => Except.error (JsError.error "Failed to parse gaia address")
    | some address => Except.ok address

/-- Embedding of `getFileContents(caller, path, app, username, zoneFileLookupURL, forceText)`:
resolve a read URL (a falsy URL makes the promise reject with `null`),
fetch it, classify the HTTP status (404 ⇒ `null`, any other non-200 ⇒
rejection), and decode 200-responses as text or binary. -/
def getFileContents (env : Env) (path app : String) (username zoneFileLookupURL : Option String)
    (forceText : Bool) : Except JsError (Option Content) :=
  match resolveReadUrl env path app username zoneFileLookupURL with
  | Except.error e => Except.error e
  | Except.ok readUrl? =>
    match readUrl? with
    | none => Except.error JsError.rejectedNull
    | some readUrl =>
      if readUrl = "" then Except.error JsError.rejectedNull
      else
        let response := env.fetch readUrl
        if response.status ≠ 200 then
          if response.status = 404 then Except.ok none
          else Except.error (JsError.error
            ("getFile " ++ path ++ " failed with HTTP status " ++ toString response.status))
        else
          let contentType := response.contentType
          if forceText = true ∨ contentType = none ∨
              strStartsWith (contentType.getD "") "text" = true ∨
              contentType = some "application/json" then
            Except.ok (some (Content.str response.text))
          else
            Except.ok (some (Content.buf response.buffer))

/-- Options object of `encryptContent`. -/
structure EncryptContentOptions where
  publicKey : Option String := none

/-- Embedding of `encryptContentImpl(caller, content, options)`: encrypt with the given
public key, falling back (on an absent or falsy key) to the key derived
from the caller's app private key, and serialise the cipher object. -/
def encryptContentImpl (env : Env) (content : Content) (options : Option EncryptContentOptions) :
    String :=
  let pk0 := (options.getD {}).publicKey
  let publicKey :=
    match pk0 with
    | some s => if s ≠ "" then s else env.getPublicKeyFromPrivate env.userData.appPrivateKey
    | none => env.getPublicKeyFromPrivate env.userData.appPrivateKey
  env.jsonStringify (env.encryptECIES publicKey content)

/-- Options object of `decryptContent`. -/
structure DecryptContentOptions where
  privateKey : Option String := none

/-- Embedding of `decryptContentImpl(caller, content, options)`: parse the cipher-object
JSON (a `SyntaxError` becomes the "may not be encrypted" hint) and
decrypt with the resolved private key. -/
def decryptContentImpl (env : Env) (content : String) (options : Option DecryptContentOptions) :
    Except JsError Content :=
  let pk0 := (options.getD {}).privateKey
  let privateKey :=
    match pk0 with
    | some s => if s ≠ "" then s else env.userData.appPrivateKey
    | none => env.userData.appPrivateKey
  match env.jsonParse content with
  | none => Except.error (JsError.error
      ("Failed to parse encrypted content JSON. The content may not "
        ++ "be encrypted. If using getFile, try passing \x7b decrypt: false \x7d."))
  | some cipherObject => env.decryptECIES privateKey cipherObject

/-- The resolved option record `getFileSignedUnencrypted` receives. -/
structure SignedGetOpt where
  username : Option String
  app : String
  zoneFileLookupURL : Option String

/-- Embedding of `getFileSignedUnencrypted(caller, path, opt)`: join of the three
operations issued by `Promise.all` (content fetch, `.sig` fetch with
`forceText`, gaia-address resolution), then the verification ladder.
`Promise.all`'s nondeterministic first-rejection is modelled as the
leftmost rejection; the claims only meet scenarios with at most one. -/
def getFileSignedUnencrypted (env : Env) (path : String) (opt : SignedGetOpt) :
    Except JsError (Option Content) :=
  match getFileContents env path opt.app opt.username opt.zoneFileLookupURL false,
        getFileContents env (path ++ SIGNATURE_FILE_SUFFIX) opt.app opt.username
          opt.zoneFileLookupURL true,
        getGaiaAddress env opt.app opt.username opt.zoneFileLookupURL with
  | Except.error e, _, _ => Except.error e
  | Except.ok _, Except.error e, _ => Except.error e
  | Except.ok _, Except.ok _, Except.error e => Except.error e
  | Except.ok fileContents?, Except.ok signatureContents?, Except.ok gaiaAddress =>
    match fileContents? with
    | none => Except.ok none
    | some fileContents =>
      if gaiaAddress = "" then
        Except.error (JsError.signatureVerificationError
          ("Failed to get gaia address for verification of: " ++ path))
      else
        match signatureContents? with
        | some (Content.str signatureContents) =>
          if signatureContents = "" then
            Except.error (JsError.signatureVerificationError
              ("Failed to obtain signature for file: " ++ path
                ++ " -- looked in " ++ path ++ SIGNATURE_FILE_SUFFIX))
          else
            match env.jsonParse signatureContents with
            | none => Except.error (JsError.error
                ("Failed to parse signature content JSON (path: " ++ path
                  ++ SIGNATURE_FILE_SUFFIX ++ ") The content may be corrupted."))
            | some sigObject =>
              let signature := jsonAsStr (sigObject.getField "signature")
              let publicKey := jsonAsStr (sigObject.getField "publicKey")
              let signerAddress := env.publicKeyToAddress publicKey
              if gaiaAddress ≠ signerAddress then
                Except.error (JsError.signatureVerificationError
                  ("Signer pubkey address (" ++ signerAddress ++ ") doesn" ++ apos
                    ++ "t match gaia address (" ++ gaiaAddress ++ ")"))
              else if env.verifyECDSA (Content.buf (env.bufferFrom fileContents))
                  publicKey signature = false then
                Except.error (JsError.signatureVerificationError
                  ("Contents do not match ECDSA signature: path: " ++ path
                    ++ ", signature: " ++ path ++ SIGNATURE_FILE_SUFFIX))
              else Except.ok (some fileContents)
        | _ =>
          Except.error (JsError.signatureVerificationError
            ("Failed to obtain signature for file: " ++ path
              ++ " -- looked in " ++ path ++ SIGNATURE_FILE_SUFFIX))

/-- Embedding of `handleSignedEncryptedContents(caller, path, storedContents, app,
username, zoneFileLookupURL)`: trust-anchor resolution (own key's address
or gaia address), combined-envelope parsing, the three-field presence
check, signer-address comparison, ECDSA verification over the
`cipherText` field, then decryption. -/
def handleSignedEncryptedContents (env : Env) (path storedContents app : String)
    (username zoneFileLookupURL : Option String) : Except JsError Content :=
  let appPrivateKey := env.userData.appPrivateKey
  let appPublicKey := env.getPublicKeyFromPrivate appPrivateKey
  let addressResult : Except JsError String :=
    match username with
    | some _ => getGaiaAddress env app username zoneFileLookupURL
    | none => Except.ok (env.publicKeyToAddress appPublicKey)
  match addressResult with
  | Except.error e => Except.error e
  | Except.ok address =>
    if address = "" then
      Except.error (JsError.signatureVerificationError
        ("Failed to get gaia address for verification of: " ++ path))
    else
      match env.jsonParse storedContents with
      | none => Except.error (JsError.error
          ("Failed to parse encrypted, signed content JSON. The content may not "
            ++ "be encrypted. If using getFile, try passing"
            ++ " \x7b verify: false, decrypt: false \x7d."))
      | some sigObject =>
        let signature := sigObject.getField "signature"
        let signerPublicKey := sigObject.getField "publicKey"
        let cipherText := sigObject.getField "cipherText"
        let signerAddress := env.publicKeyToAddress (jsonAsStr signerPublicKey)
        if jsTruthyField signerPublicKey = false ∨ jsTruthyField cipherText = false ∨
            jsTruthyField signature = false then
          Except.error (JsError.signatureVerificationError
            ("Failed to get signature verification data from file: " ++ path))
        else if signerAddress ≠ address then
          Except.error (JsError.signatureVerificationError
            ("Signer pubkey address (" ++ signerAddress ++ ") doesn" ++ apos
              ++ "t match gaia address (" ++ address ++ ")"))
        else if env.verifyECDSA (Content.str (jsonAsStr cipherText)) (jsonAsStr signerPublicKey)
            (jsonAsStr signature) = false then
          Except.error (JsError.signatureVerificationError
            ("Contents do not match ECDSA signature in file: " ++ path))
        else
          decryptContentImpl env (jsonAsStr cipherText) none

/-- Options object of `getFile`; `none` fields are absent and take the
defaults `Object.assign` supplies. -/
structure GetOptions where
  decrypt : Option Bool := none
  verify : Option Bool := none
  username : Option String := none
  app : Option String := none
  zoneFileLookupURL : Option String := none

/-- Embedding of `getFileImpl(caller, path, options)`: the option-matrix dispatcher of
Get, including the `InvalidStateError` on a missing `AppConfig` and the
four `(decrypt, verify)` branches. -/
def getFileImpl (env : Env) (path : String) (options : Option GetOptions) :
    Except JsError (Option Content) :=
  match env.appConfig with
  | none => Except.error (JsError.invalidStateError "Missing AppConfig")
  | some appConfig =>
    let o := options.getD {}
    let decrypt := o.decrypt.getD true
    let verify := o.verify.getD false
    let username := o.username
    let app := o.app.getD appConfig.appDomain
    let zoneFileLookupURL := o.zoneFileLookupURL
    if verify = true ∧ decrypt = false then
      getFileSignedUnencrypted env path
        { username := username, app := app, zoneFileLookupURL := zoneFileLookupURL }
    else
      match getFileContents env path app username zoneFileLookupURL decrypt with
      | Except.error e => Except.error e
      | Except.ok storedContents? =>
        match storedContents? with
        | none => Except.ok none
        | some storedContents =>
          if decrypt = true ∧ verify = false then
            match storedContents with
            | Content.buf _ => Except.error (JsError.error
                "Expected to get back a string for the cipherText")
            | Content.str s =>
              match decryptContentImpl env s none with
              | Except.error e => Except.error e
              | Except.ok c => Except.ok (some c)
          else if decrypt = true ∧ verify = true then
            match storedContents with
            | Content.buf _ => Except.error (JsError.error
                "Expected to get back a string for the cipherText")
            | Content.str s =>
              match handleSignedEncryptedContents env path s app username zoneFileLookupURL with
              | Except.error e => Except.error e
              | Except.ok c => Except.ok (some c)
          else if verify = false ∧ decrypt = false then
            Except.ok (some storedContents)
          else
            Except.error (JsError.error "Should be unreachable.")

/-- Options object of `putFile`. -/
structure PutOptions where
  encrypt : Option BoolOrString := none
  sign : Option BoolOrString := none

/-- The key-resolution block of `putFileImpl` (its first half): `loads n`
is the `appPrivateKey` the `n`-th `caller.loadUserData()` call would
return, so the returned call count makes the number of loads the code
performs observable.  Returns `(privateKey, publicKey, loads performed)`. -/
def putKeyResolution (pkFromPriv : String → String) (loads : Nat → String)
    (sign encrypt : BoolOrString) : String × String × Nat :=
  let p1 : String × Nat :=
    if jsTruthy sign then
      match sign with
      | BoolOrString.str s => (s, 0)
      | BoolOrString.bool _ => (loads 0, 1)
    else ("", 0)
  let privateKey1 := p1.fst
  let n1 := p1.snd
  if jsTruthy encrypt then
    match encrypt with
    | BoolOrString.str s => (privateKey1, s, n1)
    | BoolOrString.bool _ =>
      if privateKey1 = "" then (loads n1, pkFromPriv (loads n1), n1 + 1)
      else (privateKey1, pkFromPriv privateKey1, n1)
  else (privateKey1, "", n1)

/-- Embedding of `putFileImpl(caller, path, content, options)`: default resolution,
content-type inference, key resolution, and the four `(encrypt, sign)`
wire formats.  The observable effect is the list of
`uploadToGaiaHub` calls performed (two in the sign-without-encrypt mode,
one otherwise); upload transport success is the external module's
concern. -/
def putFileImpl (env : Env) (path : String) (content : Content) (options : Option PutOptions) :
    Except JsError (List UploadAction) :=
  let o := options.getD {}
  let encrypt := o.encrypt.getD (BoolOrString.bool true)
  let sign := o.sign.getD (BoolOrString.bool false)
  let contentType :=
    match content with
    | Content.str _ => "text/plain"
    | Content.buf _ => "application/octet-stream"
  let keys := putKeyResolution env.getPublicKeyFromPrivate
    (fun _ => env.userData.appPrivateKey) sign encrypt
  let privateKey := keys.fst
  let publicKey := keys.snd.fst
  if jsTruthy encrypt = false ∧ jsTruthy sign = true then
    let signatureObject := env.signECDSA privateKey content
    let signatureContent := env.jsonStringify (sigObjectToJson signatureObject)
    Except.ok [ { path := path, content := content, contentType := contentType },
      { path := path ++ SIGNATURE_FILE_SUFFIX, content := Content.str signatureContent,
        contentType := "application/json" } ]
  else if jsTruthy encrypt = true ∧ jsTruthy sign = false then
    let c2 := encryptContentImpl env content (some { publicKey := some publicKey })
    Except.ok [ { path := path, content := Content.str c2, contentType := "application/json" } ]
  else if jsTruthy encrypt = true ∧ jsTruthy sign = true then
    let cipherText := encryptContentImpl env content (some { publicKey := some publicKey })
    let signatureObject := env.signECDSA privateKey (Content.str cipherText)
    let signedCipherObject := Json.obj [("signature", Json.str signatureObject.signature),
      ("publicKey", Json.str signatureObject.publicKey), ("cipherText", Json.str cipherText)]
    Except.ok [ { path := path, content := Content.str (env.jsonStringify signedCipherObject),
                  contentType := "application/json" } ]
  else
    Except.ok [ { path := path, content := content, contentType := contentType } ]

/-- Index of the first entry on which the callback returns a falsy value
(the `for` loop body of `listFilesLoop`); entries reach the callback as
the strings the hub listed. -/
def firstFalsyIdx (callback : String → Bool) : List Json → Nat → Option Nat
  | [], _ => none
  | e :: rest, i =>
    if callback (jsonAsStr e) then firstFalsyIdx callback rest (i + 1) else some i

/-- The entries array of a list-files response; the code indexes it as an
array (a non-array, non-null `entries` would be a hub protocol breach the
claims never exercise). -/
def jsonAsArr : Json → List Json
  | Json.arr xs => xs
  | _ => []

/-- Embedding of `listFilesLoop(hubConfig, page, callCount, fileCount, callback)`: the
bounded pagination loop.  One iteration POSTs the cursor to
`{server}/list-files/{address}`, fails on HTTP ≥ 400, requires an
`entries` field, feeds entries to the callback (a falsy return resolves
`fileCount + i`), and recurses on a truthy next cursor with a non-empty
page.  The `callCount > 65536` guard raises before any fetch. -/
def listFilesLoop (env : Env) (hubConfig : GaiaHubConfig) (page : Json)
    (callCount : Nat) (fileCount : Nat) (callback : String → Bool) : Except JsError Nat :=
  if _h : callCount > 65536 then
    Except.error (JsError.error "Too many entries to list")
  else
    let pageRequest := env.jsonStringify (Json.obj [("page", page)])
    let response := env.fetchPost (hubConfig.server ++ "/list-files/" ++ hubConfig.address)
      pageRequest
    if response.status ≥ 400 then
      Except.error (JsError.error
        ("listFiles failed with HTTP status " ++ toString response.status))
    else
      match env.jsonParse response.text with
      | none => Except.error (JsError.parseFailure "Unexpected token in JSON")
      | some responseJSON =>
        let entriesField := responseJSON.getField "entries"
        let nextPage := responseJSON.getField "page"
        match entriesField with
        | none => Except.error (JsError.error "Bad listFiles response: no entries")
        | some Json.null => Except.error (JsError.error "Bad listFiles response: no entries")
        | some entriesJson =>
          let entries := jsonAsArr entriesJson
          match firstFalsyIdx callback entries 0 with
          | some i => Except.ok (fileCount + i)
          | none =>
            if jsTruthyField nextPage = true ∧ entries.length > 0 then
              listFilesLoop env hubConfig (nextPage.getD Json.null) (callCount + 1)
                (fileCount + entries.length) callback
            else
              Except.ok fileCount
termination_by 65537 - callCount
decreasing_by omega

/-- Embedding of `listFilesImpl(caller, callback)`: start the pagination loop on the
cached hub connection with a `null` cursor and zeroed counters. -/
def listFilesImpl (env : Env) (callback : String → Bool) : Except JsError Nat :=
  listFilesLoop env env.gaiaHubConfig Json.null 0 0 callback

/-- Depth-fuelled toy `JSON.stringify`: a self-delimiting length-tagged
rendering, structurally recursive on the fuel so concrete witnesses
evaluate inside the kernel. -/
def renderToyJsonF : Nat → Json → String
  | 0, _ => "?"
  | _ + 1, Json.null => "N"
  | _ + 1, Json.str s => "S" ++ toString s.length ++ ":" ++ s
  | fuel + 1, Json.arr xs =>
    "A" ++ toString xs.length ++ ":" ++ String.join (xs.map (renderToyJsonF fuel))
  | fuel + 1, Json.obj fs =>
    "O" ++ toString fs.length ++ ":" ++ String.join (fs.map (fun kv =>
      "S" ++ toString kv.fst.length ++ ":" ++ kv.fst ++ renderToyJsonF fuel kv.snd))

/-- Toy `JSON.stringify` of the witness environments (depth limit 8, far
beyond any value the witnesses build). -/
def renderToyJson (j : Json) : String := renderToyJsonF 8 j

/-- Digits-then-colon reader used by the toy JSON parser. -/
def readNum : Nat → List Char → Nat → Option (Nat × List Char)
  | 0, _, _ => none
  | _ + 1, [], _ => none
  | fuel + 1, c :: rest, acc =>
    if c = ':' then some (acc, rest)
    else if c.isDigit then readNum fuel rest (acc * 10 + (c.toNat - 48))
    else none

/-- Parse `n` consecutive values with the supplied element parser. -/
def parseCount (pe : List Char → Option (Json × List Char)) :
    Nat → List Char → Option (List Json × List Char)
  | 0, cs => some ([], cs)
  | n + 1, cs =>
    match pe cs with
    | some (j, rest) =>
      match parseCount pe n rest with
      | some (js, rest2) => some (j :: js, rest2)
      | none => none
    | none => none

/-- Parse `n` consecutive key/value pairs with the supplied value parser. -/
def parseFieldCount (pe : List Char → Option (Json × List Char)) :
    Nat → List Char → Option (List (String × Json) × List Char)
  | 0, cs => some ([], cs)
  | n + 1, cs =>
    match cs with
    | 'S' :: rest =>
      match readNum (rest.length + 1) rest 0 with
      | some (k, rest2) =>
        if k ≤ rest2.length then
          match pe (rest2.drop k) with
          | some (v, rest3) =>
            match parseFieldCount pe n rest3 with
            | some (fs, rest4) => some ((String.mk (rest2.take k), v) :: fs, rest4)
            | none => none
          | none => none
        else none
      | none => none
    | _ => none

/-- Depth-fuelled parser inverting `renderToyJsonF`. -/
def parseToyJsonF : Nat → List Char → Option (Json × List Char)
  | 0, _ => none
  | _ + 1, [] => none
  | fuel + 1, c :: rest =>
    if c = 'N' then some (Json.null, rest)
    else if c = 'S' then
      match readNum (rest.length + 1) rest 0 with
      | some (n, rest2) =>
        if n ≤ rest2.length then some (Json.str (String.mk (rest2.take n)), rest2.drop n)
        else none
      | none => none
    else if c = 'A' then
      match readNum (rest.length + 1) rest 0 with
      | some (n, rest2) =>
        match parseCount (parseToyJsonF fuel) n rest2 with
        | some (xs, rest3) => some (Json.arr xs, rest3)
        | none => none
      | none => none
    else if c = 'O' then
      match readNum (rest.length + 1) rest 0 with
      | some (n, rest2) =>
        match parseFieldCount (parseToyJsonF fuel) n rest2 with
        | some (fs, rest3) => some (Json.obj fs, rest3)
        | none => none
      | none => none
    else none

/-- Toy `JSON.parse`, total on strings, succeeding exactly on complete
toy-codec renderings (within the depth limit). -/
def toyParseJson (s : String) : Option Json :=
  match parseToyJsonF 8 s.data with
  | some (j, []) => some j
  | _ => none

/-- The byte view of a content value (UTF-agnostic toy `Buffer.from`,
codepoints as bytes). -/
def contentBytes : Content → Bytes
  | Content.str s => s.data.map Char.toNat
  | Content.buf b => b

/-- Comma-separated rendering of a byte string, for toy signature tags. -/
def bytesTag (b : Bytes) : String := String.intercalate "," (b.map toString)

/-- Toy secp256k1 public-key derivation. -/
def toyPkFromPriv (sk : String) : String := "PUB" ++ sk

/-- Toy address derivation, shaped to be found by the gaia address
pattern (leading `1`, then 26-35 characters of the base58 class). -/
def toyAddr (pk : String) : String := "1AAAAAAAAAAAAAAAAAAAAAAAAA" ++ pk

/-- Toy ECDSA signing: the signature names the key and the message bytes. -/
def toySign (sk : String) (m : Content) : SigObject :=
  { publicKey := "PUB" ++ sk, signature := "SIG" ++ sk ++ "/" ++ bytesTag (contentBytes m) }

/-- Toy ECDSA verification, accepting exactly `toySign`'s output for the
same key and the same message bytes. -/
def toyVerify (m : Content) (pk sig : String) : Bool :=
  sig = "SIG" ++ pk.drop 3 ++ "/" ++ bytesTag (contentBytes m)

/-- Content embedded into a toy cipher payload. -/
def contentToToyJson : Content → Json
  | Content.str s => Json.arr [Json.str "s", Json.str s]
  | Content.buf b => Json.arr [Json.str "b", Json.arr (b.map (fun n => Json.str (toString n)))]

/-- Partial inverse of `contentToToyJson`. -/
def toyJsonToContent : Json → Option Content
  | Json.arr [Json.str "s", Json.str s] => some (Content.str s)
  | Json.arr [Json.str "b", Json.arr xs] =>
    (xs.mapM (fun j => match j with | Json.str t => t.toNat? | _ => none)).map Content.buf
  | _ => none

/-- Toy ECIES encryption: a cipher object recording the key and payload. -/
def toyEncrypt (pk : String) (c : Content) : Json :=
  Json.obj [("ephemeralPK", Json.str pk), ("payload", contentToToyJson c)]

/-- Toy ECIES decryption, inverting `toyEncrypt` for the matching key. -/
def toyDecrypt (sk : String) (j : Json) : Except JsError Content :=
  match j with
  | Json.obj [("ephemeralPK", Json.str pk), ("payload", d)] =>
    if pk = toyPkFromPriv sk then
      match toyJsonToContent d with
      | some c => Except.ok c
      | none => Except.error (JsError.error "toy decrypt: bad payload")
    else Except.error (JsError.error "toy decrypt: wrong key")
  | _ => Except.error (JsError.error "toy decrypt: not a cipher object")

/-- App private key of the witness session. -/
def toySk : String := "k1"

/-- The witness bucket owner's gaia address. -/
def toyOwnAddr : String := toyAddr (toyPkFromPriv toySk)

/-- Read-URL root of the witness bucket; read URLs embed the owner's
address, as the hub's URL convention requires. -/
def toyReadUrlBase : String := "https://hub.example/" ++ toyOwnAddr

/-- Hub connection of the witness session. -/
def toyCfg : GaiaHubConfig :=
  { server := "https://hub.example", address := toyOwnAddr, token := "tkn" }

/-- A 404 response. -/
def resp404 : HttpResponse := { status := 404, contentType := none, text := "", buffer := [] }

/-- Baseline witness environment: toy primitives, an empty hub
(everything 404s), no multiplayer profiles. -/
def baseEnv : Env :=
  { appConfig := some { appDomain := "https://app.example" }
  , userData := { appPrivateKey := toySk }
  , gaiaHubConfig := toyCfg
  , getFullReadUrl := fun path _ => toyReadUrlBase ++ path
  , lookupProfile := fun _ _ => Except.error (JsError.error "no profile")
  , fetch := fun _ => resp404
  , fetchPost := fun _ _ => resp404
  , jsonStringify := renderToyJson
  , jsonParse := toyParseJson
  , encryptECIES := toyEncrypt
  , decryptECIES := toyDecrypt
  , signECDSA := toySign
  , verifyECDSA := toyVerify
  , getPublicKeyFromPrivate := toyPkFromPriv
  , publicKeyToAddress := toyAddr
  , bufferFrom := contentBytes
  }

/-- Content type `putFileImpl` infers for a raw upload. -/
def rawContentType : Content → String
  | Content.str _ => "text/plain"
  | Content.buf _ => "application/octet-stream"

/-- The response of a hub that faithfully serves an uploaded file back:
status 200, the uploaded content type, and the uploaded bytes under the
decoding that mode reads. -/
def uploadResponse (a : UploadAction) : HttpResponse :=
  { status := 200
  , contentType := some a.contentType
  , text := match a.content with | Content.str s => s | Content.buf _ => ""
  , buffer := match a.content with | Content.buf b => b | Content.str _ => [] }

/-- The `SignatureVerificationError` message for a missing `.sig` companion. -/
def missingSigMsg (p : String) : String :=
  "Failed to obtain signature for file: " ++ p ++ " -- looked in " ++ p ++ SIGNATURE_FILE_SUFFIX

/-- The `SignatureVerificationError` message for a signer/trust-anchor
address mismatch. -/
def addrMismatchMsg (sa ga : String) : String :=
  "Signer pubkey address (" ++ sa ++ ") doesn" ++ apos ++ "t match gaia address (" ++ ga ++ ")"

/-- The derived app public key of a session. -/
def appPubKey (env : Env) : String := env.getPublicKeyFromPrivate env.userData.appPrivateKey

/-- The serialised cipher object an encrypting put produces. -/
def encStored (env : Env) (c : Content) : String :=
  env.jsonStringify (env.encryptECIES (appPubKey env) c)

/-- The single upload performed by an encrypt-without-sign put. -/
def encUploads (env : Env) (p : String) (c : Content) : List UploadAction :=
  [ { path := p, content := Content.str (encStored env c),
      contentType := "application/json" } ]

/-- Environment whose transport answers every fetch with HTTP 201. -/
def envC8 : Env :=
  { baseEnv with fetch := fun _ => { status := 201, contentType := none, text := "", buffer := [] } }

/-- Environment in which `alice.id` has a profile whose `apps` map lacks
the caller's app origin. -/
def profEnvC7 : Env :=
  { baseEnv with lookupProfile := fun u _ =>
      if u = "alice.id" then Except.ok { apps := some [("https://other.example", "u")] }
      else Except.error (JsError.error "no such user") }

/-- Get options `{decrypt: false, username: "alice.id", app: "https://app.example"}`. -/
def optsC7 : GetOptions :=
  { decrypt := some false, username := some "alice.id", app := some "https://app.example" }

/-- Environment whose hub serves back exactly the envelope the default
(encrypting) put of `"hello"` at `/f` uploads. -/
def envC10 : Env :=
  { baseEnv with fetch := fun url =>
      if url = toyReadUrlBase ++ "/f" then
        { status := 200, contentType := some "application/json",
          text := encStored baseEnv (Content.str "hello"), buffer := [] }
      else resp404 }

/-- Environment with no app configuration on the session. -/
def noCfgEnv : Env := { baseEnv with appConfig := none }

/-- The listing endpoint URL of an environment's hub connection. -/
def listUrl (env : Env) : String :=
  env.gaiaHubConfig.server ++ "/list-files/" ++ env.gaiaHubConfig.address

/-- A successful listing response whose body renders the given page. -/
def pageResp (j : Json) : HttpResponse :=
  { status := 200, contentType := some "application/json", text := renderToyJson j, buffer := [] }

/-- First listed page: entries e1, e2, next cursor c1. -/
def pageJson1 : Json :=
  Json.obj [("entries", Json.arr [Json.str "e1", Json.str "e2"]), ("page", Json.str "c1")]

/-- Second listed page: entries e3, e4, next cursor c2. -/
def pageJson2 : Json :=
  Json.obj [("entries", Json.arr [Json.str "e3", Json.str "e4"]), ("page", Json.str "c2")]

/-- Hub serving the two pages above by cursor (anything else: HTTP 500,
so a third page request would surface as an error). -/
def listEnvC5 : Env :=
  { baseEnv with fetchPost := fun _ body =>
      if body = renderToyJson (Json.obj [("page", Json.null)]) then pageResp pageJson1
      else if body = renderToyJson (Json.obj [("page", Json.str "c1")]) then pageResp pageJson2
      else { status := 500, contentType := none, text := "", buffer := [] } }

/-- Callback that is falsy exactly on its third invocation (entry e3). -/
def cbC5 (name : String) : Bool := name ≠ "e3"

/-- An HTTP 500 response. -/
def resp500 : HttpResponse := { status := 500, contentType := none, text := "", buffer := [] }

/-- Hub answering every listing request with HTTP 500. -/
def env500C6 : Env := { baseEnv with fetchPost := fun _ _ => resp500 }

/-- Hub answering every listing request with the same non-empty page and
the same cursor. -/
def constEnvC6 : Env := { baseEnv with fetchPost := fun _ _ => pageResp pageJson1 }

/-- The always-continue listing callback. -/
def alwaysTrue : String → Bool := fun _ => true

/-- A 200 text/plain response carrying `hello`. -/
def respHello : HttpResponse :=
  { status := 200, contentType := some "text/plain", text := "hello", buffer := [] }

/-- Signature object produced by the wrong key `k2` over `hello`. -/
def sigK2 : SigObject := toySign "k2" (Content.str "hello")

/-- Environment with the content file present and the `.sig` file absent. -/
def envC3a : Env :=
  { baseEnv with fetch := fun url =>
      if url = toyReadUrlBase ++ "/f" then respHello else resp404 }

/-- Environment with the content file present and a `.sig` file written by
a key other than the bucket owner's. -/
def envC3b : Env :=
  { baseEnv with fetch := fun url =>
      if url = toyReadUrlBase ++ "/f" then respHello
      else if url = toyReadUrlBase ++ "/f.sig" then
        { status := 200, contentType := some "application/json",
          text := renderToyJson (sigObjectToJson sigK2), buffer := [] }
      else resp404 }

/-- The combined `{signature, publicKey, cipherText}` envelope an
encrypt-and-sign put builds: the ECDSA signature is taken over the
serialised cipher object (the ciphertext), not the plaintext. -/
def signedEnvelope (env : Env) (c : Content) : Json :=
  Json.obj [("signature", Json.str (env.signECDSA env.userData.appPrivateKey
      (Content.str (encStored env c))).signature),
    ("publicKey", Json.str (env.signECDSA env.userData.appPrivateKey
      (Content.str (encStored env c))).publicKey),
    ("cipherText", Json.str (encStored env c))]

/-- The single upload performed by an encrypt-and-sign put. -/
def signedEncUploads (env : Env) (p : String) (c : Content) : List UploadAction :=
  [ { path := p, content := Content.str (env.jsonStringify (signedEnvelope env c)),
      contentType := "application/json" } ]

/-- The ciphertext the witness put produces for `hello`. -/
def ctC2 : String := encStored baseEnv (Content.str "hello")

/-- Its (toy) signature object, taken over the ciphertext. -/
def sigC2 : SigObject := toySign toySk (Content.str ctC2)

/-- The tampered stored envelope: one character appended to `cipherText`,
signature kept. -/
def tamperedC2 : Json :=
  Json.obj [("signature", Json.str sigC2.signature), ("publicKey", Json.str sigC2.publicKey),
    ("cipherText", Json.str (ctC2 ++ "X"))]

/-- Environment whose hub serves the tampered envelope at `/f`. -/
def envC2 : Env :=
  { baseEnv with fetch := fun url =>
      if url = toyReadUrlBase ++ "/f" then
        { status := 200, contentType := some "application/json",
          text := renderToyJson tamperedC2, buffer := [] }
      else resp404 }

/-- The single upload performed by a raw (no encrypt, no sign) put. -/
def rawUploads (p : String) (c : Content) : List UploadAction :=
  [ { path := p, content := c, contentType := rawContentType c } ]

/-- The two uploads performed by a sign-without-encrypt put: the raw
content, and the detached signature JSON at `path + ".sig"`. -/
def signUploads (env : Env) (p : String) (c : Content) : List UploadAction :=
  [ { path := p, content := c, contentType := rawContentType c },
    { path := p ++ SIGNATURE_FILE_SUFFIX,
      content := Content.str (env.jsonStringify (sigObjectToJson
        (env.signECDSA env.userData.appPrivateKey c))),
      contentType := "application/json" } ]

/-- The raw upload of `hello` at `/f`. -/
def rawHelloUpload : UploadAction :=
  { path := "/f", content := Content.str "hello",
    contentType := rawContentType (Content.str "hello") }

/-- Environment serving the raw `hello` upload back at `/f`. -/
def envC1raw : Env :=
  { baseEnv with fetch := fun url =>
      if url = toyReadUrlBase ++ "/f" then uploadResponse rawHelloUpload
      else resp404 }

/-- Environment serving the raw `hello` upload at `/f` and its detached
signature at `/f.sig`. -/
def envC1sign : Env :=
  { baseEnv with fetch := fun url =>
      if url = toyReadUrlBase ++ "/f" then uploadResponse rawHelloUpload
      else if url = toyReadUrlBase ++ "/f.sig" then
        { status := 200, contentType := some "application/json",
          text := renderToyJson (sigObjectToJson (toySign toySk (Content.str "hello"))),
          buffer := [] }
      else resp404 }

/-- Environment serving the combined signed+encrypted envelope of `hello`. -/
def envC1se : Env :=
  { baseEnv with fetch := fun url =>
      if url = toyReadUrlBase ++ "/f" then
        { status := 200, contentType := some "application/json",
          text := renderToyJson (signedEnvelope baseEnv (Content.str "hello")), buffer := [] }
      else resp404 }

/-!  Lemmas and claim theorems. -/

/-- The two distinct `SignatureVerificationError` causes carry messages
that can never coincide, whatever path and addresses they mention. -/
lemma msg_distinguishable (p sa ga : String) : missingSigMsg p ≠ addrMismatchMsg sa ga := by
  intro h
  have h2 := congrArg String.data h
  simp only [missingSigMsg, addrMismatchMsg, String.data_append] at h2
  simp [List.cons_append] at h2

/-- Own-storage fetch of a 200 response classified as text. -/
lemma getFileContents_text (env : Env) (p app : String) (ft : Bool) (r : HttpResponse)
    (hUrl : env.getFullReadUrl p env.gaiaHubConfig ≠ "")
    (hFetch : env.fetch (env.getFullReadUrl p env.gaiaHubConfig) = r)
    (hs : r.status = 200)
    (hct : ft = true ∨ r.contentType = none ∨
      strStartsWith (r.contentType.getD "") "text" = true ∨
      r.contentType = some "application/json") :
    getFileContents env p app none none ft = Except.ok (some (Content.str r.text)) := by
  unfold getFileContents resolveReadUrl
  simp [hUrl, hFetch, hs, hct]

/-- Own-storage fetch of a 404 response. -/
lemma getFileContents_404 (env : Env) (p app : String) (ft : Bool) (r : HttpResponse)
    (hUrl : env.getFullReadUrl p env.gaiaHubConfig ≠ "")
    (hFetch : env.fetch (env.getFullReadUrl p env.gaiaHubConfig) = r)
    (hs : r.status = 404) :
    getFileContents env p app none none ft = Except.ok none := by
  unfold getFileContents resolveReadUrl
  simp [hUrl, hFetch, hs]

/-- Own-storage fetch of a response that is neither 200 nor 404. -/
lemma getFileContents_err (env : Env) (p app : String) (ft : Bool) (r : HttpResponse)
    (hUrl : env.getFullReadUrl p env.gaiaHubConfig ≠ "")
    (hFetch : env.fetch (env.getFullReadUrl p env.gaiaHubConfig) = r)
    (hs : r.status ≠ 200) (hs4 : r.status ≠ 404) :
    getFileContents env p app none none ft = Except.error (JsError.error
      ("getFile " ++ p ++ " failed with HTTP status " ++ toString r.status)) := by
  unfold getFileContents resolveReadUrl
  simp [hUrl, hFetch, hs, hs4]

/-- Own-storage fetch of a 200 response classified as binary. -/
lemma getFileContents_buf (env : Env) (p app : String) (r : HttpResponse)
    (hUrl : env.getFullReadUrl p env.gaiaHubConfig ≠ "")
    (hFetch : env.fetch (env.getFullReadUrl p env.gaiaHubConfig) = r)
    (hs : r.status = 200)
    (hct1 : r.contentType ≠ none) (hct2 : strStartsWith (r.contentType.getD "") "text" = false)
    (hct3 : r.contentType ≠ some "application/json") :
    getFileContents env p app none none false = Except.ok (some (Content.buf r.buffer)) := by
  unfold getFileContents resolveReadUrl
  simp [hUrl, hFetch, hs, hct1, hct2, hct3]

/-- Multiplayer fetch when the user's profile registers no bucket for the
app: the promise rejects with `null`. -/
lemma getFileContents_noBucket (env : Env) (p appO u : String) (zfl : Option String)
    (prof : Profile) (ft : Bool)
    (hProf : env.lookupProfile u zfl = Except.ok prof)
    (hApps : ∀ apps, prof.apps = some apps → appsLookup apps appO = none) :
    getFileContents env p appO (some u) zfl ft = Except.error JsError.rejectedNull := by
  unfold getFileContents resolveReadUrl getUserAppFileUrl
  rcases h : prof.apps with _ | apps
  · simp [hProf, h]
  · simp [hProf, h, hApps apps h]

/-- Own-storage gaia-address resolution through the read URL of `/`. -/
lemma getGaiaAddress_own (env : Env) (app a : String)
    (hAddr : matchBase58 (env.getFullReadUrl "/" env.gaiaHubConfig).data = some a) :
    getGaiaAddress env app none none = Except.ok a := by
  unfold getGaiaAddress resolveReadUrl
  simp [hAddr]

/-- Decryption of stored contents with the caller's app private key. -/
lemma decryptContentImpl_ok (env : Env) (s : String) (j : Json) (c : Content)
    (hP : env.jsonParse s = some j)
    (hD : env.decryptECIES env.userData.appPrivateKey j = Except.ok c) :
    decryptContentImpl env s none = Except.ok c := by
  unfold decryptContentImpl
  simp [hP, hD]

/-- Encrypting with the explicitly passed app public key equals encrypting
with the derived one (the falsy-key fallback re-derives the same key). -/
lemma encryptContentImpl_appKey (env : Env) (c : Content) :
    encryptContentImpl env c
      (some { publicKey := some (env.getPublicKeyFromPrivate env.userData.appPrivateKey) }) =
    env.jsonStringify (env.encryptECIES (env.getPublicKeyFromPrivate env.userData.appPrivateKey) c) := by
  unfold encryptContentImpl
  by_cases h : env.getPublicKeyFromPrivate env.userData.appPrivateKey = "" <;> simp [h]

/-- A callback that stays truthy over a page never stops the entry loop. -/
lemma firstFalsyIdx_none (cb : String → Bool) (es : List Json)
    (h : ∀ e ∈ es, cb (jsonAsStr e) = true) : ∀ i, firstFalsyIdx cb es i = none := by
  induction es with
  | nil => intro i; rfl
  | cons e rest ih =>
    intro i
    unfold firstFalsyIdx
    rw [h e (by simp)]
    simp
    exact ih (fun x hx => h x (by simp [hx])) (i + 1)

/-- The pagination guard: any call count above 65536 raises before fetching. -/
lemma listFilesLoop_guard (env : Env) (cfg : GaiaHubConfig) (page : Json) (k n : Nat)
    (cb : String → Bool) (hk : k > 65536) :
    listFilesLoop env cfg page k n cb = Except.error (JsError.error "Too many entries to list") := by
  unfold listFilesLoop
  simp [hk]

/-- Upload list of an encrypt-without-sign put (also the default mode). -/
lemma putFile_encrypt_uploads (env : Env) (p : String) (c : Content) (o : Option PutOptions)
    (hE : (o.getD {}).encrypt.getD (BoolOrString.bool true) = BoolOrString.bool true)
    (hS : (o.getD {}).sign.getD (BoolOrString.bool false) = BoolOrString.bool false) :
    putFileImpl env p c o = Except.ok (encUploads env p c) := by
  unfold putFileImpl putKeyResolution
  simp [hE, hS, jsTruthy, encryptContentImpl_appKey, encUploads, encStored, appPubKey]

/-- C8 counterexample: the claim states that 2xx statuses other than 200
are not errors, but a 201 response makes `getFileContents` reject with
the HTTP-status error (only 200 succeeds and only 404 yields `null`). -/
theorem claim_C8_counterexample :
    getFileContents envC8 "/f" "https://app.example" none none false =
      Except.error (JsError.error "getFile /f failed with HTTP status 201") := by
  rfl

/-- C8 (amended): on a Get fetch, 404 yields `null`; any other status
different from 200 (including 2xx statuses such as 201, and every status
at or above 300) rejects with the error carrying that status; on 200 the
body is decoded as text exactly when `forceText` is set or the
content type is absent, starts with "text", or equals
"application/json", and as binary otherwise. -/
theorem claim_C8 (env : Env) (p app : String) (ft : Bool) (r : HttpResponse)
    (hUrl : env.getFullReadUrl p env.gaiaHubConfig ≠ "")
    (hFetch : env.fetch (env.getFullReadUrl p env.gaiaHubConfig) = r) :
    (r.status = 404 → getFileContents env p app none none ft = Except.ok none) ∧
    (r.status ≠ 200 → r.status ≠ 404 → getFileContents env p app none none ft =
      Except.error (JsError.error
        ("getFile " ++ p ++ " failed with HTTP status " ++ toString r.status))) ∧
    (r.status = 200 →
      (ft = true ∨ r.contentType = none ∨
        strStartsWith (r.contentType.getD "") "text" = true ∨
        r.contentType = some "application/json") →
      getFileContents env p app none none ft = Except.ok (some (Content.str r.text))) ∧
    (r.status = 200 → ft = false → r.contentType ≠ none →
      strStartsWith (r.contentType.getD "") "text" = false →
      r.contentType ≠ some "application/json" →
      getFileContents env p app none none ft = Except.ok (some (Content.buf r.buffer))) := by
  refine ⟨fun h4 => getFileContents_404 env p app ft r hUrl hFetch h4,
    fun h2 h4 => getFileContents_err env p app ft r hUrl hFetch h2 h4,
    fun h2 hct => getFileContents_text env p app ft r hUrl hFetch h2 hct,
    fun h2 hft hct1 hct2 hct3 => ?_⟩
  subst hft
  exact getFileContents_buf env p app r hUrl hFetch h2 hct1 hct2 hct3

/-- C8 witness: the amended classification evaluated at the concrete
201-answering environment. -/
theorem claim_C8_witness :
    getFileContents envC8 "/f" "https://app.example" none none false =
      Except.error (JsError.error "getFile /f failed with HTTP status 201") :=
  (claim_C8 envC8 "/f" "https://app.example" false
    { status := 201, contentType := none, text := "", buffer := [] }
    (by decide) rfl).2.1 (by decide) (by decide)

/-- C7 counterexample: when no read URL resolves (the other user's profile
has no bucket for the app), the Get promise does not resolve with the
absent-file `null`; it rejects (with `null` as the rejection reason),
unlike the 404 outcome `Except.ok none`. -/
theorem claim_C7_counterexample :
    getFileImpl profEnvC7 "/f" (some optsC7) = Except.error JsError.rejectedNull ∧
    getFileImpl profEnvC7 "/f" (some optsC7) ≠ Except.ok none := by
  have h1 : getFileImpl profEnvC7 "/f" (some optsC7) = Except.error JsError.rejectedNull := by rfl
  exact ⟨h1, by rw [h1]; simp⟩

/-- C7 (amended): when no read URL resolves for a Get, the promise rejects
with `null` as the rejection reason — an error-path outcome,
distinguishable from the absent-file case, which resolves with `null` —
for every `(decrypt, verify)` option combination. -/
theorem claim_C7 (env : Env) (p u appO : String) (zfl : Option String) (prof : Profile)
    (ac : AppConfig) (d v : Option Bool)
    (hCfg : env.appConfig = some ac)
    (hProf : env.lookupProfile u zfl = Except.ok prof)
    (hApps : ∀ apps, prof.apps = some apps → appsLookup apps appO = none) :
    getFileImpl env p (some ⟨d, v, some u, some appO, zfl⟩) = Except.error JsError.rejectedNull ∧
    Except.error JsError.rejectedNull ≠ (Except.ok none : Except JsError (Option Content)) := by
  refine ⟨?_, by simp⟩
  have hc := fun ft => getFileContents_noBucket env p appO u zfl prof ft hProf hApps
  unfold getFileImpl
  rcases d with _ | d <;> rcases v with _ | v
  · simp [hCfg, hc]
  · cases v <;> simp [hCfg, hc, getFileSignedUnencrypted, hc false]
  · simp [hCfg, hc]
  · cases d <;> cases v <;> simp [hCfg, hc, getFileSignedUnencrypted, hc false]

/-- C7 witness: the amended statement at the concrete no-bucket profile. -/
theorem claim_C7_witness :
    getFileImpl profEnvC7 "/f" (some ⟨some false, none, some "alice.id",
      some "https://app.example", none⟩) = Except.error JsError.rejectedNull ∧
    Except.error JsError.rejectedNull ≠ (Except.ok none : Except JsError (Option Content)) :=
  claim_C7 profEnvC7 "/f" "alice.id" "https://app.example" none
    { apps := some [("https://other.example", "u")] } { appDomain := "https://app.example" }
    (some false) none rfl rfl
    (by intro apps h; cases h; rfl)

/-- C9: in Put key resolution, signing without an explicit key loads the
caller's app private key; encryption without an explicit key derives the
public key from the already-resolved signing key when one exists
(explicit or loaded) and from a freshly loaded app private key otherwise;
with both options on and no explicit keys the same single load feeds both
(the third component counts `loadUserData` calls). -/
theorem claim_C9 (pkf : String → String) (loads : Nat → String) (s : String)
    (h0 : loads 0 ≠ "") (hs : s ≠ "") :
    putKeyResolution pkf loads (BoolOrString.bool true) (BoolOrString.bool true) =
      (loads 0, pkf (loads 0), 1) ∧
    putKeyResolution pkf loads (BoolOrString.bool true) (BoolOrString.bool false) =
      (loads 0, "", 1) ∧
    putKeyResolution pkf loads (BoolOrString.bool false) (BoolOrString.bool true) =
      (loads 0, pkf (loads 0), 1) ∧
    putKeyResolution pkf loads (BoolOrString.str s) (BoolOrString.bool true) =
      (s, pkf s, 0) := by
  refine ⟨?_, ?_, ?_, ?_⟩ <;> unfold putKeyResolution <;> simp [jsTruthy, h0, hs]

/-- C9 witness: key resolution evaluated on a concrete load sequence. -/
theorem claim_C9_witness :
    putKeyResolution toyPkFromPriv (fun n => if n = 0 then "k1" else "zz")
      (BoolOrString.bool true) (BoolOrString.bool true) = ("k1", toyPkFromPriv "k1", 1) ∧
    putKeyResolution toyPkFromPriv (fun n => if n = 0 then "k1" else "zz")
      (BoolOrString.bool true) (BoolOrString.bool false) = ("k1", "", 1) ∧
    putKeyResolution toyPkFromPriv (fun n => if n = 0 then "k1" else "zz")
      (BoolOrString.bool false) (BoolOrString.bool true) = ("k1", toyPkFromPriv "k1", 1) ∧
    putKeyResolution toyPkFromPriv (fun n => if n = 0 then "k1" else "zz")
      (BoolOrString.str "explicit") (BoolOrString.bool true) =
      ("explicit", toyPkFromPriv "explicit", 0) :=
  claim_C9 toyPkFromPriv (fun n => if n = 0 then "k1" else "zz") "explicit"
    (by decide) (by decide)

/-- C10: with the options argument omitted, Put defaults to encrypting
(single `application/json` upload of the cipher object) and Get defaults
to decrypting, so an option-less Put/Get pair on one path round-trips the
content when the hub serves back the stored envelope; and a Get on a
session with no app configuration rejects with `InvalidStateError`
whatever the rest of the environment (hence before any network use). -/
theorem claim_C10 (env env2 : Env) (p : String) (c : Content) (opts : Option GetOptions)
    (ac : AppConfig)
    (hCfg : env.appConfig = some ac)
    (hUrl : env.getFullReadUrl p env.gaiaHubConfig ≠ "")
    (hFetch : env.fetch (env.getFullReadUrl p env.gaiaHubConfig) =
      { status := 200, contentType := some "application/json",
        text := encStored env c, buffer := [] })
    (hParse : env.jsonParse (encStored env c) =
      some (env.encryptECIES (appPubKey env) c))
    (hDec : env.decryptECIES env.userData.appPrivateKey
        (env.encryptECIES (appPubKey env) c) = Except.ok c)
    (hCfg2 : env2.appConfig = none) :
    putFileImpl env p c none = Except.ok (encUploads env p c) ∧
    getFileImpl env p none = Except.ok (some c) ∧
    getFileImpl env2 p opts = Except.error (JsError.invalidStateError "Missing AppConfig") := by
  refine ⟨putFile_encrypt_uploads env p c none rfl rfl, ?_, ?_⟩
  · have hget := getFileContents_text env p ac.appDomain true _ hUrl hFetch rfl (by simp)
    have hdec := decryptContentImpl_ok env (encStored env c)
      (env.encryptECIES (appPubKey env) c) c hParse hDec
    unfold getFileImpl
    simp [hCfg, hget, hdec]
  · unfold getFileImpl
    simp [hCfg2]

/-- C10 witness: the default-option round trip and the missing-AppConfig
rejection on concrete environments. -/
theorem claim_C10_witness :
    putFileImpl envC10 "/f" (Content.str "hello") none =
      Except.ok (encUploads envC10 "/f" (Content.str "hello")) ∧
    getFileImpl envC10 "/f" none = Except.ok (some (Content.str "hello")) ∧
    getFileImpl noCfgEnv "/f" none = Except.error (JsError.invalidStateError "Missing AppConfig") :=
  claim_C10 envC10 noCfgEnv "/f" (Content.str "hello") none
    { appDomain := "https://app.example" } rfl (by decide) rfl (by rfl) (by rfl) rfl

/-- One non-final iteration of the pagination loop: a successful page whose
callback run stays truthy recurses on the next cursor with accumulated
counters. -/
lemma listFilesLoop_step (env : Env) (page : Json) (k n : Nat) (cb : String → Bool)
    (es : List Json) (cur : String) (r : HttpResponse)
    (hk : ¬ k > 65536)
    (hb : env.fetchPost (listUrl env) (env.jsonStringify (Json.obj [("page", page)])) = r)
    (hs : ¬ r.status ≥ 400)
    (hp : env.jsonParse r.text = some (Json.obj [("entries", Json.arr es), ("page", Json.str cur)]))
    (hcb : ∀ e ∈ es, cb (jsonAsStr e) = true)
    (hlen : es ≠ [])
    (hcur : cur ≠ "") :
    listFilesLoop env env.gaiaHubConfig page k n cb =
      listFilesLoop env env.gaiaHubConfig (Json.str cur) (k + 1) (n + es.length) cb := by
  simp only [listUrl] at hb
  rw [listFilesLoop.eq_def]
  simp [hk, hb, hs, hp, Json.getField, List.find?, jsTruthyField, jsonAsArr, hcur,
    firstFalsyIdx_none cb es hcb, hlen, List.length_pos]

/-- A page on which the callback goes falsy resolves the accumulated count
plus the falsy index immediately. -/
lemma listFilesLoop_stop (env : Env) (page : Json) (k n : Nat) (cb : String → Bool)
    (es : List Json) (pg : Json) (r : HttpResponse) (i : Nat)
    (hk : ¬ k > 65536)
    (hb : env.fetchPost (listUrl env) (env.jsonStringify (Json.obj [("page", page)])) = r)
    (hs : ¬ r.status ≥ 400)
    (hp : env.jsonParse r.text = some (Json.obj [("entries", Json.arr es), ("page", pg)]))
    (hidx : firstFalsyIdx cb es 0 = some i) :
    listFilesLoop env env.gaiaHubConfig page k n cb = Except.ok (n + i) := by
  simp only [listUrl] at hb
  rw [listFilesLoop.eq_def]
  simp [hk, hb, hs, hp, Json.getField, List.find?, jsonAsArr, hidx]

/-- An iteration whose listing request fails (HTTP at or above 400)
rejects with the status-carrying error. -/
lemma listFilesLoop_http_err (env : Env) (page : Json) (k n : Nat) (cb : String → Bool)
    (r : HttpResponse)
    (hk : ¬ k > 65536)
    (hb : env.fetchPost (listUrl env) (env.jsonStringify (Json.obj [("page", page)])) = r)
    (hs : r.status ≥ 400) :
    listFilesLoop env env.gaiaHubConfig page k n cb = Except.error (JsError.error
      ("listFiles failed with HTTP status " ++ toString r.status)) := by
  simp only [listUrl] at hb
  rw [listFilesLoop.eq_def]
  simp [hk, hb, hs]

/-- C5 (amended): when the per-entry callback returns a falsy value, the
pagination loop stops immediately and resolves `fileCount + i` — the
number of entries processed strictly before the falsy one, excluding it —
so over two pages of two entries with the callback falsy on its third
invocation, `listFilesImpl` returns 2 (not 3); and since only the first
two cursors are constrained by the hypotheses, the result holds whatever
the hub would answer for a third page, i.e. no third page is consulted. -/
theorem claim_C5 (env : Env) (cb : String → Bool) (e1 e2 e3 e4 cur1 cur2 : String)
    (r1 r2 : HttpResponse)
    (hb0 : env.fetchPost (listUrl env) (env.jsonStringify (Json.obj [("page", Json.null)])) = r1)
    (hs1 : ¬ r1.status ≥ 400)
    (hp1 : env.jsonParse r1.text =
      some (Json.obj [("entries", Json.arr [Json.str e1, Json.str e2]), ("page", Json.str cur1)]))
    (hcur1 : cur1 ≠ "")
    (hb1 : env.fetchPost (listUrl env)
      (env.jsonStringify (Json.obj [("page", Json.str cur1)])) = r2)
    (hs2 : ¬ r2.status ≥ 400)
    (hp2 : env.jsonParse r2.text =
      some (Json.obj [("entries", Json.arr [Json.str e3, Json.str e4]), ("page", Json.str cur2)]))
    (h1 : cb e1 = true) (h2 : cb e2 = true) (h3 : cb e3 = false) :
    listFilesImpl env cb = Except.ok 2 ∧ (Except.ok 2 : Except JsError Nat) ≠ Except.ok 3 := by
  refine ⟨?_, by simp⟩
  unfold listFilesImpl
  rw [listFilesLoop_step env Json.null 0 0 cb [Json.str e1, Json.str e2] cur1 r1
    (by norm_num) hb0 hs1 hp1
    (by intro e he; simp at he; rcases he with h | h <;> subst h <;> simp [jsonAsStr, h1, h2])
    (by simp) hcur1]
  have := listFilesLoop_stop env (Json.str cur1) 1 2 cb [Json.str e3, Json.str e4]
    (Json.str cur2) r2 0 (by norm_num) hb1 hs2 hp2
    (by simp [firstFalsyIdx, jsonAsStr, h3])
  simpa using this

/-- Endless identical pages drive the loop into the `TooManyPages` guard. -/
lemma listFilesLoop_endless (env : Env) (cb : String → Bool) (es : List Json) (cur : String)
    (r : HttpResponse)
    (hb : ∀ body, env.fetchPost (listUrl env) body = r)
    (hs : ¬ r.status ≥ 400)
    (hp : env.jsonParse r.text =
      some (Json.obj [("entries", Json.arr es), ("page", Json.str cur)]))
    (hcb : ∀ e ∈ es, cb (jsonAsStr e) = true)
    (hlen : es ≠ []) (hcur : cur ≠ "") :
    ∀ (m k : Nat) (page : Json) (n : Nat), 65537 - k ≤ m →
      listFilesLoop env env.gaiaHubConfig page k n cb =
        Except.error (JsError.error "Too many entries to list") := by
  intro m
  induction m with
  | zero =>
    intro k page n hm
    exact listFilesLoop_guard env _ page k n cb (by omega)
  | succ m ih =>
    intro k page n hm
    by_cases hk : k > 65536
    · exact listFilesLoop_guard env _ page k n cb hk
    · rw [listFilesLoop_step env page k n cb es cur r hk (hb _) hs hp hcb hlen hcur]
      exact ih (k + 1) (Json.str cur) (n + es.length) (by omega)

/-- C6 (amended): against a hub that always returns the same non-empty
page and cursor, the pagination loop terminates by raising the
too-many-entries error rather than looping forever; the guard fires when
the zero-based call counter reaches 65537, so 65537 page requests are
performed — one more than the claim's 65536 — as the second conjunct
shows: at counter value 65536 (the 65537th iteration) the request is
still issued, while at 65537 the loop aborts before fetching. -/
theorem claim_C6 (env env2 : Env) (cb : String → Bool) (es : List Json) (cur : String)
    (r r2 : HttpResponse) (page pg2 : Json) (n n2 : Nat)
    (hb : ∀ body, env.fetchPost (listUrl env) body = r)
    (hs : ¬ r.status ≥ 400)
    (hp : env.jsonParse r.text =
      some (Json.obj [("entries", Json.arr es), ("page", Json.str cur)]))
    (hcb : ∀ e ∈ es, cb (jsonAsStr e) = true)
    (hlen : es ≠ []) (hcur : cur ≠ "")
    (hb2 : ∀ body, env2.fetchPost (listUrl env2) body = r2)
    (hs2 : r2.status ≥ 400) :
    listFilesImpl env cb = Except.error (JsError.error "Too many entries to list") ∧
    listFilesLoop env2 env2.gaiaHubConfig pg2 65536 n2 cb = Except.error (JsError.error
      ("listFiles failed with HTTP status " ++ toString r2.status)) ∧
    listFilesLoop env env.gaiaHubConfig page 65537 n cb =
      Except.error (JsError.error "Too many entries to list") := by
  refine ⟨?_, ?_, ?_⟩
  · unfold listFilesImpl
    exact listFilesLoop_endless env cb es cur r hb hs hp hcb hlen hcur 65537 0 Json.null 0
      (by norm_num)
  · exact listFilesLoop_http_err env2 pg2 65536 n2 cb r2 (by norm_num) (hb2 _) hs2
  · exact listFilesLoop_guard env _ page 65537 n cb (by norm_num)

/-- C5 counterexample: over two pages of two entries each with the
callback falsy on its third invocation, `listFilesImpl` resolves 2, not
the 3 the claim states (the loop returns `fileCount + i`, excluding the
entry the callback rejected). -/
theorem claim_C5_counterexample :
    listFilesImpl listEnvC5 cbC5 = Except.ok 2 ∧ listFilesImpl listEnvC5 cbC5 ≠ Except.ok 3 := by
  have h1 : listFilesImpl listEnvC5 cbC5 = Except.ok 2 := by
    unfold listFilesImpl
    rw [listFilesLoop_step listEnvC5 Json.null 0 0 cbC5 [Json.str "e1", Json.str "e2"] "c1"
      (pageResp pageJson1) (by norm_num) rfl (by decide) (by rfl)
      (by intro e he; simp at he; rcases he with h | h <;> subst h <;> rfl)
      (by simp) (by decide)]
    have := listFilesLoop_stop listEnvC5 (Json.str "c1") 1 2 cbC5
      [Json.str "e3", Json.str "e4"] (Json.str "c2") (pageResp pageJson2) 0
      (by norm_num) rfl (by decide) (by rfl) (by rfl)
    simpa using this
  exact ⟨h1, by rw [h1]; simp⟩

/-- C5 witness: the amended count on the concrete two-page hub. -/
theorem claim_C5_witness :
    listFilesImpl listEnvC5 cbC5 = Except.ok 2 ∧
    (Except.ok 2 : Except JsError Nat) ≠ Except.ok 3 :=
  claim_C5 listEnvC5 cbC5 "e1" "e2" "e3" "e4" "c1" "c2" (pageResp pageJson1) (pageResp pageJson2)
    rfl (by decide) (by rfl) (by decide) rfl (by decide) (by rfl) rfl rfl rfl

/-- C6 counterexample: after 65536 complete iterations (counter value
65536) the loop still performs a fetch — surfacing the hub's HTTP 500 —
instead of aborting with the too-many-entries error, which only fires at
counter value 65537; this contradicts the claim's "aborts after 65536
iterations / raises at iteration 65537" count by one. -/
theorem claim_C6_counterexample :
    listFilesLoop env500C6 env500C6.gaiaHubConfig Json.null 65536 0 alwaysTrue =
      Except.error (JsError.error "listFiles failed with HTTP status 500") ∧
    listFilesLoop env500C6 env500C6.gaiaHubConfig Json.null 65537 0 alwaysTrue =
      Except.error (JsError.error "Too many entries to list") := by
  constructor
  · exact (listFilesLoop_http_err env500C6 Json.null 65536 0 alwaysTrue resp500
      (by norm_num) rfl (by decide)).trans (by rfl)
  · exact listFilesLoop_guard env500C6 _ Json.null 65537 0 alwaysTrue (by norm_num)

/-- C6 witness: the amended bound on concrete constant-page and
constant-500 hubs. -/
theorem claim_C6_witness :
    listFilesImpl constEnvC6 alwaysTrue =
      Except.error (JsError.error "Too many entries to list") ∧
    listFilesLoop env500C6 env500C6.gaiaHubConfig Json.null 65536 0 alwaysTrue =
      Except.error (JsError.error ("listFiles failed with HTTP status " ++
        toString resp500.status)) ∧
    listFilesLoop constEnvC6 constEnvC6.gaiaHubConfig Json.null 65537 0 alwaysTrue =
      Except.error (JsError.error "Too many entries to list") :=
  claim_C6 constEnvC6 env500C6 alwaysTrue [Json.str "e1", Json.str "e2"] "c1"
    (pageResp pageJson1) resp500 Json.null Json.null 0 0
    (fun _ => rfl) (by decide) (by rfl) (fun e _ => rfl) (by simp) (by decide)
    (fun _ => rfl) (by decide)

/-- C4: an HTTP 404 for the content file makes Get resolve `null` for all
four `(decrypt, verify)` option combinations — never an error — and since
the environment's codec and verification primitives are arbitrary, the
`null` is produced without invoking them. -/
theorem claim_C4 (env : Env) (p : String) (ac : AppConfig) (a : String)
    (hCfg : env.appConfig = some ac)
    (hUrlP : env.getFullReadUrl p env.gaiaHubConfig ≠ "")
    (hUrlS : env.getFullReadUrl (p ++ SIGNATURE_FILE_SUFFIX) env.gaiaHubConfig ≠ "")
    (h404P : (env.fetch (env.getFullReadUrl p env.gaiaHubConfig)).status = 404)
    (h404S : (env.fetch (env.getFullReadUrl (p ++ SIGNATURE_FILE_SUFFIX)
      env.gaiaHubConfig)).status = 404)
    (hAddr : matchBase58 (env.getFullReadUrl "/" env.gaiaHubConfig).data = some a) :
    getFileImpl env p (some ⟨some false, some false, none, none, none⟩) = Except.ok none ∧
    getFileImpl env p (some ⟨some true, some false, none, none, none⟩) = Except.ok none ∧
    getFileImpl env p (some ⟨some true, some true, none, none, none⟩) = Except.ok none ∧
    getFileImpl env p (some ⟨some false, some true, none, none, none⟩) = Except.ok none := by
  have hcP := fun ft => getFileContents_404 env p ac.appDomain ft _ hUrlP rfl h404P
  have hcS := fun ft => getFileContents_404 env (p ++ SIGNATURE_FILE_SUFFIX) ac.appDomain ft
    _ hUrlS rfl h404S
  have haddr := getGaiaAddress_own env ac.appDomain a hAddr
  refine ⟨?_, ?_, ?_, ?_⟩ <;> unfold getFileImpl <;>
    simp [hCfg, hcP, hcS, getFileSignedUnencrypted, haddr]

/-- C4 witness: the empty toy hub (every fetch 404s) resolves `null` in
all four modes. -/
theorem claim_C4_witness :
    getFileImpl baseEnv "/f" (some ⟨some false, some false, none, none, none⟩) =
      Except.ok none ∧
    getFileImpl baseEnv "/f" (some ⟨some true, some false, none, none, none⟩) =
      Except.ok none ∧
    getFileImpl baseEnv "/f" (some ⟨some true, some true, none, none, none⟩) =
      Except.ok none ∧
    getFileImpl baseEnv "/f" (some ⟨some false, some true, none, none, none⟩) =
      Except.ok none :=
  claim_C4 baseEnv "/f" { appDomain := "https://app.example" } toyOwnAddr
    rfl (by decide) (by decide) rfl rfl (by rfl)

/-- C3: Get with `verify` and without `decrypt` joins three operations —
the content fetch at `path`, the signature fetch at `path + ".sig"` with
text decoding forced, and the trust-anchor address resolution (the
`Promise.all` concurrency is modelled as their join).  When the content
file exists but the `.sig` file 404s, the result is a
`SignatureVerificationError` with the missing-signature message; when the
signature exists but its signer's address differs from the trust anchor,
the result carries the address-mismatch message; and the two messages can
never coincide, so the causes stay distinguishable. -/
theorem claim_C3 (env1 env2 : Env) (p : String) (ac1 ac2 : AppConfig) (a1 a2 : String)
    (r1 r2 : HttpResponse) (sigStored : String) (so : SigObject)
    (hCfg1 : env1.appConfig = some ac1)
    (hU1 : env1.getFullReadUrl p env1.gaiaHubConfig ≠ "")
    (hU1s : env1.getFullReadUrl (p ++ SIGNATURE_FILE_SUFFIX) env1.gaiaHubConfig ≠ "")
    (hF1 : env1.fetch (env1.getFullReadUrl p env1.gaiaHubConfig) = r1)
    (hr1 : r1.status = 200) (hct1 : r1.contentType = some "text/plain")
    (hF1s : (env1.fetch (env1.getFullReadUrl (p ++ SIGNATURE_FILE_SUFFIX)
      env1.gaiaHubConfig)).status = 404)
    (hAddr1 : matchBase58 (env1.getFullReadUrl "/" env1.gaiaHubConfig).data = some a1)
    (hA1 : a1 ≠ "")
    (hCfg2 : env2.appConfig = some ac2)
    (hU2 : env2.getFullReadUrl p env2.gaiaHubConfig ≠ "")
    (hU2s : env2.getFullReadUrl (p ++ SIGNATURE_FILE_SUFFIX) env2.gaiaHubConfig ≠ "")
    (hF2 : env2.fetch (env2.getFullReadUrl p env2.gaiaHubConfig) = r2)
    (hr2 : r2.status = 200) (hct2 : r2.contentType = some "text/plain")
    (hF2s : env2.fetch (env2.getFullReadUrl (p ++ SIGNATURE_FILE_SUFFIX) env2.gaiaHubConfig) =
      { status := 200, contentType := some "application/json", text := sigStored, buffer := [] })
    (hne : sigStored ≠ "")
    (hP2 : env2.jsonParse sigStored = some (sigObjectToJson so))
    (hAddr2 : matchBase58 (env2.getFullReadUrl "/" env2.gaiaHubConfig).data = some a2)
    (hA2 : a2 ≠ "")
    (hMis : a2 ≠ env2.publicKeyToAddress so.publicKey) :
    getFileImpl env1 p (some ⟨some false, some true, none, none, none⟩) =
      Except.error (JsError.signatureVerificationError (missingSigMsg p)) ∧
    getFileImpl env2 p (some ⟨some false, some true, none, none, none⟩) =
      Except.error (JsError.signatureVerificationError
        (addrMismatchMsg (env2.publicKeyToAddress so.publicKey) a2)) ∧
    (∀ q sa ga, JsError.signatureVerificationError (missingSigMsg q) ≠
      JsError.signatureVerificationError (addrMismatchMsg sa ga)) := by
  refine ⟨?_, ?_, fun q sa ga h => msg_distinguishable q sa ga (by injection h)⟩
  · have hc := getFileContents_text env1 p ac1.appDomain false r1 hU1 hF1 hr1
      (by simp [hct1]; rfl)
    have hcS := getFileContents_404 env1 (p ++ SIGNATURE_FILE_SUFFIX) ac1.appDomain true
      _ hU1s rfl hF1s
    have haddr := getGaiaAddress_own env1 ac1.appDomain a1 hAddr1
    unfold getFileImpl
    simp [hCfg1, getFileSignedUnencrypted, hc, hcS, haddr, hA1, missingSigMsg]
  · have hc := getFileContents_text env2 p ac2.appDomain false r2 hU2 hF2 hr2
      (by simp [hct2]; rfl)
    have hcS := getFileContents_text env2 (p ++ SIGNATURE_FILE_SUFFIX) ac2.appDomain true
      _ hU2s hF2s rfl (by simp)
    have haddr := getGaiaAddress_own env2 ac2.appDomain a2 hAddr2
    unfold getFileImpl
    simp [hCfg2, getFileSignedUnencrypted, hc, hcS, haddr, hA2, hne, hP2, sigObjectToJson,
      Json.getField, List.find?, jsonAsStr, hMis, addrMismatchMsg]

/-- C3 witness: the two failure causes on concrete environments. -/
theorem claim_C3_witness :
    getFileImpl envC3a "/f" (some ⟨some false, some true, none, none, none⟩) =
      Except.error (JsError.signatureVerificationError (missingSigMsg "/f")) ∧
    getFileImpl envC3b "/f" (some ⟨some false, some true, none, none, none⟩) =
      Except.error (JsError.signatureVerificationError
        (addrMismatchMsg (envC3b.publicKeyToAddress sigK2.publicKey) toyOwnAddr)) ∧
    (∀ q sa ga, JsError.signatureVerificationError (missingSigMsg q) ≠
      JsError.signatureVerificationError (addrMismatchMsg sa ga)) :=
  claim_C3 envC3a envC3b "/f" { appDomain := "https://app.example" }
    { appDomain := "https://app.example" } toyOwnAddr toyOwnAddr respHello respHello
    (renderToyJson (sigObjectToJson sigK2)) sigK2
    rfl (by decide) (by decide) rfl rfl rfl rfl (by rfl) (by decide)
    rfl (by decide) (by decide) rfl rfl rfl rfl (by decide) (by rfl) (by rfl)
    (by decide) (by decide)

/-- Encrypting with an explicitly passed key that is derived from the
session's own private key equals encrypting with the derived key (the
falsy-key fallback re-derives the same key). -/
lemma encryptContentImpl_keyOf (env : Env) (c : Content) (sk : String)
    (hsk : sk = env.userData.appPrivateKey) :
    encryptContentImpl env c (some { publicKey := some (env.getPublicKeyFromPrivate sk) }) =
    env.jsonStringify (env.encryptECIES (env.getPublicKeyFromPrivate sk) c) := by
  subst hsk
  exact encryptContentImpl_appKey env c

/-- Upload list of an encrypt-and-sign put. -/
lemma putFile_signedEnc (env : Env) (p : String) (c : Content) :
    putFileImpl env p c (some ⟨some (BoolOrString.bool true), some (BoolOrString.bool true)⟩) =
      Except.ok (signedEncUploads env p c) := by
  unfold putFileImpl putKeyResolution
  rcases eq_or_ne env.userData.appPrivateKey "" with h | h
  · simp [jsTruthy, h, encryptContentImpl_keyOf env c "" h.symm, signedEncUploads,
      signedEnvelope, encStored, appPubKey]
  · simp [jsTruthy, h, encryptContentImpl_appKey, signedEncUploads, signedEnvelope,
      encStored, appPubKey]

/-- C2: in encrypt+sign mode, Put signs the JSON-serialised cipher object
(the ciphertext) and uploads the single combined
`{signature, publicKey, cipherText}` envelope as `application/json`; and
Get with decrypt+verify checks the ECDSA signature against the stored
`cipherText` field, so a stored envelope whose `cipherText` no longer
verifies under the kept signature is rejected with the
signature-mismatch error. -/
theorem claim_C2 (env env2 : Env) (p : String) (c : Content)
    (stored sig spk ct2 : String) (ac : AppConfig)
    (hCfg : env2.appConfig = some ac)
    (hU : env2.getFullReadUrl p env2.gaiaHubConfig ≠ "")
    (hF : env2.fetch (env2.getFullReadUrl p env2.gaiaHubConfig) =
      { status := 200, contentType := some "application/json", text := stored, buffer := [] })
    (hP : env2.jsonParse stored = some (Json.obj [("signature", Json.str sig),
      ("publicKey", Json.str spk), ("cipherText", Json.str ct2)]))
    (hsig : sig ≠ "") (hspk : spk ≠ "") (hct : ct2 ≠ "")
    (hAddrEq : env2.publicKeyToAddress spk = env2.publicKeyToAddress (appPubKey env2))
    (hAddrNE : env2.publicKeyToAddress (appPubKey env2) ≠ "")
    (hV : env2.verifyECDSA (Content.str ct2) spk sig = false) :
    putFileImpl env p c (some ⟨some (BoolOrString.bool true), some (BoolOrString.bool true)⟩) =
      Except.ok (signedEncUploads env p c) ∧
    getFileImpl env2 p (some ⟨some true, some true, none, none, none⟩) =
      Except.error (JsError.signatureVerificationError
        ("Contents do not match ECDSA signature in file: " ++ p)) := by
  refine ⟨putFile_signedEnc env p c, ?_⟩
  have hc := getFileContents_text env2 p ac.appDomain true _ hU hF rfl (by simp)
  unfold getFileImpl
  simp only [hCfg]
  simp [hc]
  unfold handleSignedEncryptedContents
  simp only [appPubKey] at hAddrEq hAddrNE
  simp [hAddrNE, hP, Json.getField, List.find?, jsTruthyField, jsonAsStr, hsig, hspk, hct,
    hAddrEq, hV]

set_option maxRecDepth 20000 in
/-- C2 witness: the put-side envelope equation and the concrete tampered
read being rejected. -/
theorem claim_C2_witness :
    putFileImpl baseEnv "/f" (Content.str "hello")
      (some ⟨some (BoolOrString.bool true), some (BoolOrString.bool true)⟩) =
      Except.ok (signedEncUploads baseEnv "/f" (Content.str "hello")) ∧
    getFileImpl envC2 "/f" (some ⟨some true, some true, none, none, none⟩) =
      Except.error (JsError.signatureVerificationError
        ("Contents do not match ECDSA signature in file: " ++ "/f")) :=
  claim_C2 baseEnv envC2 "/f" (Content.str "hello") (renderToyJson tamperedC2)
    sigC2.signature sigC2.publicKey (ctC2 ++ "X") { appDomain := "https://app.example" }
    rfl (by decide) rfl (by rfl) (by decide) (by decide) (by decide) rfl (by decide) (by rfl)

/-- Upload list of a raw put. -/
lemma putFile_raw (env : Env) (p : String) (c : Content) :
    putFileImpl env p c (some ⟨some (BoolOrString.bool false), some (BoolOrString.bool false)⟩) =
      Except.ok (rawUploads p c) := by
  unfold putFileImpl putKeyResolution
  cases c <;> simp [jsTruthy, rawUploads, rawContentType]

/-- Upload list of a sign-without-encrypt put. -/
lemma putFile_signOnly (env : Env) (p : String) (c : Content) :
    putFileImpl env p c (some ⟨some (BoolOrString.bool false), some (BoolOrString.bool true)⟩) =
      Except.ok (signUploads env p c) := by
  unfold putFileImpl putKeyResolution
  cases c <;> simp [jsTruthy, signUploads, rawContentType]

/-- A faithfully served raw upload is fetched back as the original
content value (text branch for strings, binary branch for buffers). -/
lemma getFileContents_upload_raw (env : Env) (p app : String) (c : Content)
    (hUrl : env.getFullReadUrl p env.gaiaHubConfig ≠ "")
    (hFetch : env.fetch (env.getFullReadUrl p env.gaiaHubConfig) =
      uploadResponse { path := p, content := c, contentType := rawContentType c }) :
    getFileContents env p app none none false = Except.ok (some c) := by
  cases c with
  | str s =>
    exact getFileContents_text env p app false _ hUrl hFetch rfl (by simp [uploadResponse, rawContentType]; rfl)
  | buf b =>
    exact getFileContents_buf env p app _ hUrl hFetch rfl (by simp [uploadResponse, rawContentType])
      (by simp [uploadResponse, rawContentType]; rfl) (by simp [uploadResponse, rawContentType])

/-- Raw round trip: put with `(encrypt: false, sign: false)`, get with
`(decrypt: false, verify: false)`. -/
lemma roundtrip_raw (env : Env) (p : String) (c : Content) (ac : AppConfig)
    (hCfg : env.appConfig = some ac)
    (hUrl : env.getFullReadUrl p env.gaiaHubConfig ≠ "")
    (hFetch : env.fetch (env.getFullReadUrl p env.gaiaHubConfig) =
      uploadResponse { path := p, content := c, contentType := rawContentType c }) :
    putFileImpl env p c (some ⟨some (BoolOrString.bool false), some (BoolOrString.bool false)⟩) =
      Except.ok (rawUploads p c) ∧
    getFileImpl env p (some ⟨some false, some false, none, none, none⟩) =
      Except.ok (some c) := by
  refine ⟨putFile_raw env p c, ?_⟩
  have hc := getFileContents_upload_raw env p ac.appDomain c hUrl hFetch
  unfold getFileImpl
  simp [hCfg, hc]

/-- Encrypt round trip: put with `(encrypt: true, sign: false)`, get with
`(decrypt: true, verify: false)`. -/
lemma roundtrip_encrypt (env : Env) (p : String) (c : Content) (ac : AppConfig)
    (hCfg : env.appConfig = some ac)
    (hUrl : env.getFullReadUrl p env.gaiaHubConfig ≠ "")
    (hFetch : env.fetch (env.getFullReadUrl p env.gaiaHubConfig) =
      { status := 200, contentType := some "application/json",
        text := encStored env c, buffer := [] })
    (hParse : env.jsonParse (encStored env c) = some (env.encryptECIES (appPubKey env) c))
    (hDec : env.decryptECIES env.userData.appPrivateKey
      (env.encryptECIES (appPubKey env) c) = Except.ok c) :
    putFileImpl env p c (some ⟨some (BoolOrString.bool true), some (BoolOrString.bool false)⟩) =
      Except.ok (encUploads env p c) ∧
    getFileImpl env p (some ⟨some true, some false, none, none, none⟩) =
      Except.ok (some c) := by
  refine ⟨putFile_encrypt_uploads env p c _ rfl rfl, ?_⟩
  have hget := getFileContents_text env p ac.appDomain true _ hUrl hFetch rfl (by simp)
  have hdec := decryptContentImpl_ok env (encStored env c)
    (env.encryptECIES (appPubKey env) c) c hParse hDec
  unfold getFileImpl
  simp [hCfg, hget, hdec]

/-- Field lookup on a serialised detached signature object. -/
lemma sigObjectToJson_publicKey (so : SigObject) :
    Json.getField (sigObjectToJson so) "publicKey" = some (Json.str so.publicKey) := by
  simp [sigObjectToJson, Json.getField, List.find?]

/-- Field lookup on a serialised detached signature object. -/
lemma sigObjectToJson_signature (so : SigObject) :
    Json.getField (sigObjectToJson so) "signature" = some (Json.str so.signature) := by
  simp [sigObjectToJson, Json.getField, List.find?]

/-- Field lookup on the combined signed+encrypted envelope. -/
lemma signedEnvelope_signature (env : Env) (c : Content) :
    Json.getField (signedEnvelope env c) "signature" = some (Json.str
      (env.signECDSA env.userData.appPrivateKey (Content.str (encStored env c))).signature) := by
  simp [signedEnvelope, Json.getField, List.find?]

/-- Field lookup on the combined signed+encrypted envelope. -/
lemma signedEnvelope_publicKey (env : Env) (c : Content) :
    Json.getField (signedEnvelope env c) "publicKey" = some (Json.str
      (env.signECDSA env.userData.appPrivateKey (Content.str (encStored env c))).publicKey) := by
  simp [signedEnvelope, Json.getField, List.find?]

/-- Field lookup on the combined signed+encrypted envelope. -/
lemma signedEnvelope_cipherText (env : Env) (c : Content) :
    Json.getField (signedEnvelope env c) "cipherText" =
      some (Json.str (encStored env c)) := by
  simp [signedEnvelope, Json.getField, List.find?]

/-- Sign-without-encrypt round trip: put with `(encrypt: false, sign: true)`
(two uploads), get with `(decrypt: false, verify: true)` (two fetches plus
trust-anchor resolution, signature checked over the raw content bytes). -/
lemma roundtrip_sign (env : Env) (p : String) (c : Content) (ac : AppConfig)
    (hCfg : env.appConfig = some ac)
    (hUrl : env.getFullReadUrl p env.gaiaHubConfig ≠ "")
    (hUrlS : env.getFullReadUrl (p ++ SIGNATURE_FILE_SUFFIX) env.gaiaHubConfig ≠ "")
    (hFetch : env.fetch (env.getFullReadUrl p env.gaiaHubConfig) =
      uploadResponse { path := p, content := c, contentType := rawContentType c })
    (hFetchS : env.fetch (env.getFullReadUrl (p ++ SIGNATURE_FILE_SUFFIX) env.gaiaHubConfig) =
      { status := 200, contentType := some "application/json",
        text := env.jsonStringify (sigObjectToJson
          (env.signECDSA env.userData.appPrivateKey c)), buffer := [] })
    (hSigNe : env.jsonStringify (sigObjectToJson
      (env.signECDSA env.userData.appPrivateKey c)) ≠ "")
    (hParseS : env.jsonParse (env.jsonStringify (sigObjectToJson
        (env.signECDSA env.userData.appPrivateKey c))) =
      some (sigObjectToJson (env.signECDSA env.userData.appPrivateKey c)))
    (hAddr : matchBase58 (env.getFullReadUrl "/" env.gaiaHubConfig).data =
      some (env.publicKeyToAddress (env.signECDSA env.userData.appPrivateKey c).publicKey))
    (hAddrNe : env.publicKeyToAddress (env.signECDSA env.userData.appPrivateKey c).publicKey ≠ "")
    (hVer : env.verifyECDSA (Content.buf (env.bufferFrom c))
      (env.signECDSA env.userData.appPrivateKey c).publicKey
      (env.signECDSA env.userData.appPrivateKey c).signature = true) :
    putFileImpl env p c (some ⟨some (BoolOrString.bool false), some (BoolOrString.bool true)⟩) =
      Except.ok (signUploads env p c) ∧
    getFileImpl env p (some ⟨some false, some true, none, none, none⟩) =
      Except.ok (some c) := by
  refine ⟨putFile_signOnly env p c, ?_⟩
  have hc := getFileContents_upload_raw env p ac.appDomain c hUrl hFetch
  have hcS := getFileContents_text env (p ++ SIGNATURE_FILE_SUFFIX) ac.appDomain true
    _ hUrlS hFetchS rfl (by simp)
  have haddr := getGaiaAddress_own env ac.appDomain _ hAddr
  unfold getFileImpl
  simp only [hCfg]
  simp
  unfold getFileSignedUnencrypted
  simp [hc, hcS, haddr, hAddrNe, hSigNe, hParseS, sigObjectToJson_publicKey,
    sigObjectToJson_signature, jsonAsStr, hVer]

/-- Encrypt-and-sign round trip: put with `(encrypt: true, sign: true)`
(single combined envelope), get with `(decrypt: true, verify: true)`
(verify over the `cipherText` field, then decrypt it). -/
lemma roundtrip_signEnc (env : Env) (p : String) (c : Content) (ac : AppConfig)
    (hCfg : env.appConfig = some ac)
    (hUrl : env.getFullReadUrl p env.gaiaHubConfig ≠ "")
    (hFetch : env.fetch (env.getFullReadUrl p env.gaiaHubConfig) =
      { status := 200, contentType := some "application/json",
        text := env.jsonStringify (signedEnvelope env c), buffer := [] })
    (hParse : env.jsonParse (env.jsonStringify (signedEnvelope env c)) =
      some (signedEnvelope env c))
    (hSigNe : (env.signECDSA env.userData.appPrivateKey
      (Content.str (encStored env c))).signature ≠ "")
    (hPkNe : (env.signECDSA env.userData.appPrivateKey
      (Content.str (encStored env c))).publicKey ≠ "")
    (hCtNe : encStored env c ≠ "")
    (hPk : (env.signECDSA env.userData.appPrivateKey
      (Content.str (encStored env c))).publicKey = appPubKey env)
    (hAddrNe : env.publicKeyToAddress (appPubKey env) ≠ "")
    (hVer : env.verifyECDSA (Content.str (encStored env c))
      (env.signECDSA env.userData.appPrivateKey (Content.str (encStored env c))).publicKey
      (env.signECDSA env.userData.appPrivateKey
        (Content.str (encStored env c))).signature = true)
    (hParseCt : env.jsonParse (encStored env c) = some (env.encryptECIES (appPubKey env) c))
    (hDec : env.decryptECIES env.userData.appPrivateKey
      (env.encryptECIES (appPubKey env) c) = Except.ok c) :
    putFileImpl env p c (some ⟨some (BoolOrString.bool true), some (BoolOrString.bool true)⟩) =
      Except.ok (signedEncUploads env p c) ∧
    getFileImpl env p (some ⟨some true, some true, none, none, none⟩) =
      Except.ok (some c) := by
  refine ⟨putFile_signedEnc env p c, ?_⟩
  have hget := getFileContents_text env p ac.appDomain true _ hUrl hFetch rfl (by simp)
  have hdec := decryptContentImpl_ok env (encStored env c)
    (env.encryptECIES (appPubKey env) c) c hParseCt hDec
  unfold getFileImpl
  simp only [hCfg]
  simp [hget]
  unfold handleSignedEncryptedContents
  simp only [appPubKey] at hPk hAddrNe
  have hPkNe2 : env.getPublicKeyFromPrivate env.userData.appPrivateKey ≠ "" := hPk ▸ hPkNe
  have hVer2 : env.verifyECDSA (Content.str (encStored env c))
      (env.getPublicKeyFromPrivate env.userData.appPrivateKey)
      (env.signECDSA env.userData.appPrivateKey
        (Content.str (encStored env c))).signature = true := hPk ▸ hVer
  simp [hAddrNe, hParse, signedEnvelope_signature, signedEnvelope_publicKey,
    signedEnvelope_cipherText, jsTruthyField, jsonAsStr, hSigNe, hPkNe, hCtNe, hPk,
    hPkNe2, hVer2, hdec]

/-- C1: for each of the four `(encrypt, sign)` option pairs at Put, the
matching `(decrypt, verify)` pair at Get on the same path returns the
original content exactly, given a hub that faithfully serves back what
was uploaded (the fetch hypotheses) and external JSON/ECIES/ECDSA
primitives that are correct inverses (the parse, decrypt and verify
hypotheses).  Each conjunct pairs the put's upload list with the get's
result. -/
theorem claim_C1 (envA envB envC envD : Env) (p : String) (c : Content)
    (acA acB acC acD : AppConfig)
    (hCfgA : envA.appConfig = some acA)
    (hUrlA : envA.getFullReadUrl p envA.gaiaHubConfig ≠ "")
    (hFetchA : envA.fetch (envA.getFullReadUrl p envA.gaiaHubConfig) =
      uploadResponse { path := p, content := c, contentType := rawContentType c })
    (hCfgB : envB.appConfig = some acB)
    (hUrlB : envB.getFullReadUrl p envB.gaiaHubConfig ≠ "")
    (hFetchB : envB.fetch (envB.getFullReadUrl p envB.gaiaHubConfig) =
      { status := 200, contentType := some "application/json",
        text := encStored envB c, buffer := [] })
    (hParseB : envB.jsonParse (encStored envB c) = some (envB.encryptECIES (appPubKey envB) c))
    (hDecB : envB.decryptECIES envB.userData.appPrivateKey
      (envB.encryptECIES (appPubKey envB) c) = Except.ok c)
    (hCfgC : envC.appConfig = some acC)
    (hUrlC : envC.getFullReadUrl p envC.gaiaHubConfig ≠ "")
    (hUrlCs : envC.getFullReadUrl (p ++ SIGNATURE_FILE_SUFFIX) envC.gaiaHubConfig ≠ "")
    (hFetchC : envC.fetch (envC.getFullReadUrl p envC.gaiaHubConfig) =
      uploadResponse { path := p, content := c, contentType := rawContentType c })
    (hFetchCs : envC.fetch (envC.getFullReadUrl (p ++ SIGNATURE_FILE_SUFFIX)
        envC.gaiaHubConfig) =
      { status := 200, contentType := some "application/json",
        text := envC.jsonStringify (sigObjectToJson
          (envC.signECDSA envC.userData.appPrivateKey c)), buffer := [] })
    (hSigNeC : envC.jsonStringify (sigObjectToJson
      (envC.signECDSA envC.userData.appPrivateKey c)) ≠ "")
    (hParseC : envC.jsonParse (envC.jsonStringify (sigObjectToJson
        (envC.signECDSA envC.userData.appPrivateKey c))) =
      some (sigObjectToJson (envC.signECDSA envC.userData.appPrivateKey c)))
    (hAddrC : matchBase58 (envC.getFullReadUrl "/" envC.gaiaHubConfig).data =
      some (envC.publicKeyToAddress (envC.signECDSA envC.userData.appPrivateKey c).publicKey))
    (hAddrNeC : envC.publicKeyToAddress
      (envC.signECDSA envC.userData.appPrivateKey c).publicKey ≠ "")
    (hVerC : envC.verifyECDSA (Content.buf (envC.bufferFrom c))
      (envC.signECDSA envC.userData.appPrivateKey c).publicKey
      (envC.signECDSA envC.userData.appPrivateKey c).signature = true)
    (hCfgD : envD.appConfig = some acD)
    (hUrlD : envD.getFullReadUrl p envD.gaiaHubConfig ≠ "")
    (hFetchD : envD.fetch (envD.getFullReadUrl p envD.gaiaHubConfig) =
      { status := 200, contentType := some "application/json",
        text := envD.jsonStringify (signedEnvelope envD c), buffer := [] })
    (hParseD : envD.jsonParse (envD.jsonStringify (signedEnvelope envD c)) =
      some (signedEnvelope envD c))
    (hSigNeD : (envD.signECDSA envD.userData.appPrivateKey
      (Content.str (encStored envD c))).signature ≠ "")
    (hPkNeD : (envD.signECDSA envD.userData.appPrivateKey
      (Content.str (encStored envD c))).publicKey ≠ "")
    (hCtNeD : encStored envD c ≠ "")
    (hPkD : (envD.signECDSA envD.userData.appPrivateKey
      (Content.str (encStored envD c))).publicKey = appPubKey envD)
    (hAddrNeD : envD.publicKeyToAddress (appPubKey envD) ≠ "")
    (hVerD : envD.verifyECDSA (Content.str (encStored envD c))
      (envD.signECDSA envD.userData.appPrivateKey (Content.str (encStored envD c))).publicKey
      (envD.signECDSA envD.userData.appPrivateKey
        (Content.str (encStored envD c))).signature = true)
    (hParseCtD : envD.jsonParse (encStored envD c) = some (envD.encryptECIES (appPubKey envD) c))
    (hDecD : envD.decryptECIES envD.userData.appPrivateKey
      (envD.encryptECIES (appPubKey envD) c) = Except.ok c) :
    (putFileImpl envA p c
        (some ⟨some (BoolOrString.bool false), some (BoolOrString.bool false)⟩) =
      Except.ok (rawUploads p c) ∧
     getFileImpl envA p (some ⟨some false, some false, none, none, none⟩) =
      Except.ok (some c)) ∧
    (putFileImpl envB p c
        (some ⟨some (BoolOrString.bool true), some (BoolOrString.bool false)⟩) =
      Except.ok (encUploads envB p c) ∧
     getFileImpl envB p (some ⟨some true, some false, none, none, none⟩) =
      Except.ok (some c)) ∧
    (putFileImpl envC p c
        (some ⟨some (BoolOrString.bool false), some (BoolOrString.bool true)⟩) =
      Except.ok (signUploads envC p c) ∧
     getFileImpl envC p (some ⟨some false, some true, none, none, none⟩) =
      Except.ok (some c)) ∧
    (putFileImpl envD p c
        (some ⟨some (BoolOrString.bool true), some (BoolOrString.bool true)⟩) =
      Except.ok (signedEncUploads envD p c) ∧
     getFileImpl envD p (some ⟨some true, some true, none, none, none⟩) =
      Except.ok (some c)) :=
  ⟨roundtrip_raw envA p c acA hCfgA hUrlA hFetchA,
   roundtrip_encrypt envB p c acB hCfgB hUrlB hFetchB hParseB hDecB,
   roundtrip_sign envC p c acC hCfgC hUrlC hUrlCs hFetchC hFetchCs hSigNeC hParseC
     hAddrC hAddrNeC hVerC,
   roundtrip_signEnc envD p c acD hCfgD hUrlD hFetchD hParseD hSigNeD hPkNeD hCtNeD
     hPkD hAddrNeD hVerD hParseCtD hDecD⟩

set_option maxRecDepth 40000 in
/-- C1 witness: all four round trips evaluated on concrete environments. -/
theorem claim_C1_witness :
    (putFileImpl envC1raw "/f" (Content.str "hello")
        (some ⟨some (BoolOrString.bool false), some (BoolOrString.bool false)⟩) =
      Except.ok (rawUploads "/f" (Content.str "hello")) ∧
     getFileImpl envC1raw "/f" (some ⟨some false, some false, none, none, none⟩) =
      Except.ok (some (Content.str "hello"))) ∧
    (putFileImpl envC10 "/f" (Content.str "hello")
        (some ⟨some (BoolOrString.bool true), some (BoolOrString.bool false)⟩) =
      Except.ok (encUploads envC10 "/f" (Content.str "hello")) ∧
     getFileImpl envC10 "/f" (some ⟨some true, some false, none, none, none⟩) =
      Except.ok (some (Content.str "hello"))) ∧
    (putFileImpl envC1sign "/f" (Content.str "hello")
        (some ⟨some (BoolOrString.bool false), some (BoolOrString.bool true)⟩) =
      Except.ok (signUploads envC1sign "/f" (Content.str "hello")) ∧
     getFileImpl envC1sign "/f" (some ⟨some false, some true, none, none, none⟩) =
      Except.ok (some (Content.str "hello"))) ∧
    (putFileImpl envC1se "/f" (Content.str "hello")
        (some ⟨some (BoolOrString.bool true), some (BoolOrString.bool true)⟩) =
      Except.ok (signedEncUploads envC1se "/f" (Content.str "hello")) ∧
     getFileImpl envC1se "/f" (some ⟨some true, some true, none, none, none⟩) =
      Except.ok (some (Content.str "hello"))) :=
  claim_C1 envC1raw envC10 envC1sign envC1se "/f" (Content.str "hello")
    { appDomain := "https://app.example" } { appDomain := "https://app.example" }
    { appDomain := "https://app.example" } { appDomain := "https://app.example" }
    rfl (by decide) (by rfl)
    rfl (by decide) rfl (by rfl) (by rfl)
    rfl (by decide) (by decide) (by rfl) rfl (by decide) (by rfl) (by rfl) (by decide) (by rfl)
    rfl (by decide) rfl (by rfl) (by decide) (by decide) (by decide) rfl (by decide) (by rfl)
    (by rfl) (by rfl)

end Blockstack

